import Mathlib

/-!
# Table tennis (arcade edition): the per-frame simulation of `src/index.js`

A shallow embedding of the game engine.  JavaScript numbers that hold
coordinates, velocities and speeds are elements of a linearly ordered field
`α` (instantiated with `ℚ` for concrete evaluation and with `ℝ` where the
claim speaks of exact real arithmetic).  The functions of `Math` that are not
field operations (`sqrt`, `cos`, `sin`, `PI`) are passed as a record, the
value returned by `Math.random()` and the table rectangle returned by
`getTableRect()` are passed as arguments.  Counters are integers.

Calls into the DOM are dropped; the sound cues a function requests are
recorded in `State.trace`, and the `localStorage` item that holds the high
score is the field `State.stored`.  The field `animFrameId` and the event
listeners (keys, pointer, buttons) are outside the simulation and are not
modelled; the held-key object is the function `State.keysDown`.

`moveBall()` is the composition of its five steps (`integrate`, `wallBounce`,
`leftPaddle`, `rightPaddle`, `scoring`), and `movePaddles()` of its key
steps, `moveAI()` and the final clamps.
-/

namespace PingPong

/-- The functions of the JavaScript `Math` object that are not field operations. -/
structure JSMath (α : Type) where
  sqrt : α → α
  cos : α → α
  sin : α → α
  PI : α

/-- Sound cues requested by the simulation (`soundWallBounce`, `onPaddleHit`,
`soundScore`, `soundGameOver`). -/
inductive Cue where
  | wallBounce
  | paddleHitLeft
  | paddleHitRight
  | score
  | gameOver
  deriving DecidableEq, Repr

/-- One difficulty preset of the table `DIFFICULTY`. -/
structure Preset (α : Type) where
  ballSpeed : α
  aiSpeed : α
  aiReaction : α

/-- A JavaScript number that holds an integer or `NaN`: the values `parseInt` returns
and `state.highScore` takes. -/
inductive JSNumber where
  | nan
  | int (n : Int)
  deriving DecidableEq, Repr

/-- The JavaScript comparison `a > b`, false as soon as one side is `NaN`. -/
def JSNumber.gt : JSNumber → JSNumber → Bool
  | JSNumber.int a, JSNumber.int b => decide (a > b)
  | _, _ => false

/-- The string `String(x)` that `localStorage.setItem` stores for a number. -/
def JSNumber.toJSString : JSNumber → String
  | JSNumber.nan => "NaN"
  | JSNumber.int n => toString n

/-- The builtin `parseInt(str, 10)` on the strings a stored integer can be read from:
leading white space is skipped, one sign is read, then the longest run of decimal
digits; with no digit the result is `NaN`. -/
def parseInt (str : String) : JSNumber :=
  let cs := str.toList.dropWhile Char.isWhitespace
  let negative := cs.head? == some '-'
  let cs := match cs with
    | '-' :: rest => rest
    | '+' :: rest => rest
    | _ => cs
  let ds := cs.takeWhile Char.isDigit
  if ds.isEmpty then JSNumber.nan
  else
    let n : Nat := ds.foldl (fun acc c => 10 * acc + (c.toNat - 48)) 0
    JSNumber.int (if negative then -(n : Int) else (n : Int))

/-- The global object `state`, with the sound trace and the stored high score. -/
structure State (α : Type) where
  mode : String
  difficulty : String
  running : Bool
  paused : Bool
  p1Score : Int
  p2Score : Int
  ballX : α
  ballY : α
  dx : α
  dy : α
  ballSpeed : α
  currentSpeed : α
  paddle1Y : α
  paddle2Y : α
  paddleSpeed : α
  aiSpeed : α
  aiReaction : α
  aiTargetY : α
  keysDown : String → Bool
  highScore : JSNumber
  rallyCount : Int
  stored : Option String
  trace : List Cue

section Engine

variable {α : Type} [LinearOrderedField α]

def WIN_SCORE : Int := 7

def PADDLE_HEIGHT : α := 80

def PADDLE_WIDTH : α := 14

def BALL_SIZE : α := 16

def PADDLE_MARGIN : α := 12

def SPEED_INCREMENT : α := 3 / 10

/-- The table `DIFFICULTY`; a key that is not in the table has no preset. -/
def DIFFICULTY (key : String) : Option (Preset α) :=
  if key = "easy" then some ⟨7, 5, 1 / 2⟩
  else if key = "medium" then some ⟨10, 8, 4 / 5⟩
  else if key = "hard" then some ⟨13, 11, 1⟩
  else none

/-- The literal initial value of `state`. -/
def initialState : State α :=
  { mode := "1P", difficulty := "medium", running := false, paused := false,
    p1Score := 0, p2Score := 0, ballX := 0, ballY := 0, dx := 0, dy := 0,
    ballSpeed := 9 / 2, currentSpeed := 9 / 2, paddle1Y := 0, paddle2Y := 0,
    paddleSpeed := 6, aiSpeed := 4, aiReaction := 7 / 100, aiTargetY := 0,
    keysDown := fun _ => false, highScore := JSNumber.int 0, rallyCount := 0,
    stored := none, trace := [] }

/-- The utility `clamp(val, min, max)`: `Math.max(min, Math.min(max, val))`. -/
def clamp (val lo hi : α) : α := max lo (min hi val)

/-- The function `Math.sign`. -/
def sign (x : α) : α := if 0 < x then 1 else if x < 0 then -1 else 0

/-- The function `loadHighScore()`: `saved ? parseInt(saved, 10) : 0`, where a missing
item (`null`) and the empty string are falsy. -/
def loadHighScore (s : State α) : State α :=
  match s.stored with
  | none => { s with highScore := JSNumber.int 0 }
  | some saved =>
    if saved = "" then { s with highScore := JSNumber.int 0 }
    else { s with highScore := parseInt saved }

/-- The function `saveHighScore(score)`. -/
def saveHighScore (score : JSNumber) (s : State α) : State α :=
  if JSNumber.gt score s.highScore then
    { s with highScore := score, stored := some (JSNumber.toJSString score) }
  else s

/-- The function `resetBall(direction)`; `rnd` is the value of `Math.random()`. -/
def resetBall (M : JSMath α) (w h rnd direction : α) (s : State α) : State α :=
  let angle := (rnd * 60 - 30) * (M.PI / 180)
  { s with
    ballX := w / 2 - BALL_SIZE / 2
    ballY := h / 2 - BALL_SIZE / 2
    dx := direction * M.cos angle * s.currentSpeed
    dy := M.sin angle * s.currentSpeed
    rallyCount := 0 }

/-- The function `resetPaddles()`. -/
def resetPaddles (h : α) (s : State α) : State α :=
  { s with paddle1Y := h / 2 - PADDLE_HEIGHT / 2, paddle2Y := h / 2 - PADDLE_HEIGHT / 2 }

/-- The function `resetGame()`; it throws when `state.difficulty` is not a key of
`DIFFICULTY`. -/
def resetGame (M : JSMath α) (w h rnd : α) (s : State α) : Option (State α) :=
  match (DIFFICULTY s.difficulty : Option (Preset α)) with
  | none => none
  | some diff =>
    some (resetBall M w h rnd 1 (resetPaddles h
      { s with
        ballSpeed := diff.ballSpeed
        currentSpeed := diff.ballSpeed
        aiSpeed := diff.aiSpeed
        aiReaction := diff.aiReaction
        p1Score := 0
        p2Score := 0
        rallyCount := 0
        keysDown := fun _ => false }))

/-- The function `checkPaddleCollision(paddleX, paddleY)`: overlap of the two boxes. -/
def checkPaddleCollision (s : State α) (paddleX paddleY : α) : Bool :=
  decide (s.ballX < paddleX + PADDLE_WIDTH) &&
  decide (s.ballX + BALL_SIZE > paddleX) &&
  decide (s.ballY < paddleY + PADDLE_HEIGHT) &&
  decide (s.ballY + BALL_SIZE > paddleY)

/-- The local `offset` of `deflectBall(paddleY)`. -/
def deflectOffset (s : State α) (paddleY : α) : α :=
  let paddleCenter := paddleY + PADDLE_HEIGHT / 2
  let ballCenter := s.ballY + BALL_SIZE / 2
  (ballCenter - paddleCenter) / (PADDLE_HEIGHT / 2)

/-- The local `angle` of `deflectBall(paddleY)`. -/
def deflectAngle (M : JSMath α) (s : State α) (paddleY : α) : α :=
  let maxAngle := 60 * (M.PI / 180)
  deflectOffset s paddleY * maxAngle

/-- The local `newSpeed` of `deflectBall(paddleY)`. -/
def deflectNewSpeed (M : JSMath α) (s : State α) : α :=
  let speed := M.sqrt (s.dx * s.dx + s.dy * s.dy)
  speed + SPEED_INCREMENT

/-- The function `deflectBall(paddleY)`. -/
def deflectBall (M : JSMath α) (s : State α) (paddleY : α) : State α :=
  let angle := deflectAngle M s paddleY
  let newSpeed := deflectNewSpeed M s
  let dir : α := if s.dx > 0 then 1 else -1
  { s with
    currentSpeed := newSpeed
    rallyCount := s.rallyCount + 1
    dx := dir * M.cos angle * newSpeed
    dy := M.sin angle * newSpeed }

/-- The function `onPaddleHit(paddleEl)`: only its sound cue is kept. -/
def onPaddleHit (c : Cue) (s : State α) : State α :=
  { s with trace := s.trace ++ [c] }

/-- The function `checkGameOver()`: the returned boolean and the new state. -/
def checkGameOver (s : State α) : Bool × State α :=
  if s.p1Score ≥ WIN_SCORE ∨ s.p2Score ≥ WIN_SCORE then
    let s1 := { s with running := false }
    let winnerScore := max s1.p1Score s1.p2Score
    let s2 := saveHighScore (JSNumber.int winnerScore) s1
    (true, { s2 with trace := s2.trace ++ [Cue.gameOver] })
  else (false, s)

/-- First step of `moveBall()`: the position is advanced by the velocity. -/
def integrate (s : State α) : State α :=
  { s with ballX := s.ballX + s.dx, ballY := s.ballY + s.dy }

/-- Second step of `moveBall()`: bounce off the top or bottom wall. -/
def wallBounce (h : α) (s : State α) : State α :=
  if s.ballY ≤ 0 then
    { s with ballY := 0, dy := |s.dy|, trace := s.trace ++ [Cue.wallBounce] }
  else if s.ballY ≥ h - BALL_SIZE then
    { s with ballY := h - BALL_SIZE, dy := -|s.dy|, trace := s.trace ++ [Cue.wallBounce] }
  else s

/-- Third step of `moveBall()`: collision with the left paddle. -/
def leftPaddle (M : JSMath α) (s : State α) : State α :=
  let p1X : α := PADDLE_MARGIN
  if checkPaddleCollision s p1X s.paddle1Y then
    if s.dx < 0 then
      onPaddleHit Cue.paddleHitLeft
        (deflectBall M { s with ballX := p1X + PADDLE_WIDTH, dx := |s.dx| } s.paddle1Y)
    else s
  else s

/-- Fourth step of `moveBall()`: collision with the right paddle. -/
def rightPaddle (M : JSMath α) (w : α) (s : State α) : State α :=
  let p2X : α := w - PADDLE_MARGIN - PADDLE_WIDTH
  if checkPaddleCollision s p2X s.paddle2Y then
    if s.dx > 0 then
      onPaddleHit Cue.paddleHitRight
        (deflectBall M { s with ballX := p2X - BALL_SIZE, dx := -|s.dx| } s.paddle2Y)
    else s
  else s

/-- The two lines `state.currentSpeed = state.ballSpeed; checkGameOver() || resetBall(d)`. -/
def afterPoint (M : JSMath α) (w h rnd direction : α) (s : State α) : State α :=
  let s1 := { s with trace := s.trace ++ [Cue.score], currentSpeed := s.ballSpeed }
  let r := checkGameOver s1
  if r.1 then r.2 else resetBall M w h rnd direction r.2

/-- Last step of `moveBall()`: the ball has left through the left or right edge. -/
def scoring (M : JSMath α) (w h rnd : α) (s : State α) : State α :=
  if s.ballX ≤ -BALL_SIZE then
    afterPoint M w h rnd 1 { s with p2Score := s.p2Score + 1 }
  else if s.ballX ≥ w then
    afterPoint M w h rnd (-1) { s with p1Score := s.p1Score + 1 }
  else s

/-- The function `moveBall()` on a table of size `w` by `h`. -/
def moveBall (M : JSMath α) (w h rnd : α) (s : State α) : State α :=
  scoring M w h rnd (rightPaddle M w (leftPaddle M (wallBounce h (integrate s))))

/-- The function `moveAI()`. -/
def moveAI (h : α) (s : State α) : State α :=
  let ballCenterY := s.ballY + BALL_SIZE / 2
  if s.dx > 0 then
    let s1 := { s with aiTargetY := ballCenterY - PADDLE_HEIGHT / 2 }
    let diff := s1.aiTargetY - s1.paddle2Y
    { s1 with paddle2Y := s1.paddle2Y + (diff * s1.aiReaction + sign diff * min |diff| s1.aiSpeed) }
  else
    let center := h / 2 - PADDLE_HEIGHT / 2
    let diff := center - s.paddle2Y
    { s with paddle2Y := s.paddle2Y + diff * (2 / 100) }

/-- Lines 369-370 of `movePaddles()`: player 1 on the keys W and S. -/
def moveP1Keys (s : State α) : State α :=
  let speed := s.paddleSpeed
  let s := if s.keysDown "w" || s.keysDown "W" then { s with paddle1Y := s.paddle1Y - speed } else s
  if s.keysDown "s" || s.keysDown "S" then { s with paddle1Y := s.paddle1Y + speed } else s

/-- Lines 374-375 of `movePaddles()`: player 1 on the arrow keys (single-player mode). -/
def moveP1Arrows (s : State α) : State α :=
  let speed := s.paddleSpeed
  let s := if s.keysDown "ArrowUp" then { s with paddle1Y := s.paddle1Y - speed } else s
  if s.keysDown "ArrowDown" then { s with paddle1Y := s.paddle1Y + speed } else s

/-- Lines 381-382 of `movePaddles()`: player 2 on the arrow keys (two-player mode). -/
def moveP2Arrows (s : State α) : State α :=
  let speed := s.paddleSpeed
  let s := if s.keysDown "ArrowUp" then { s with paddle2Y := s.paddle2Y - speed } else s
  if s.keysDown "ArrowDown" then { s with paddle2Y := s.paddle2Y + speed } else s

/-- The function `movePaddles()` up to, and not including, the final two clamps. -/
def movePaddlesRaw (h : α) (s : State α) : State α :=
  let s := moveP1Keys s
  let s := if s.mode = "1P" then moveAI h (moveP1Arrows s) else s
  if s.mode = "2P" then moveP2Arrows s else s

/-- The function `movePaddles()`. -/
def movePaddles (h : α) (s : State α) : State α :=
  let s := movePaddlesRaw h s
  { s with
    paddle1Y := clamp s.paddle1Y 0 (h - PADDLE_HEIGHT)
    paddle2Y := clamp s.paddle2Y 0 (h - PADDLE_HEIGHT) }

/-- The part of `startGame()` after the toggles are read: `resetGame()`, then the
match is set running. -/
def startGame (M : JSMath α) (w h rnd : α) (mode difficulty : String) (s : State α) :
    Option (State α) :=
  (resetGame M w h rnd { s with mode := mode, difficulty := difficulty }).map
    fun s1 => { s1 with running := true, paused := false }

/-- The function `quitToMenu()`: the match is stopped and the high score re-read. -/
def quitToMenu (s : State α) : State α :=
  loadHighScore { s with running := false, paused := false }

/-- The function `gameLoop()`: one frame, a no-op unless running and not paused. -/
def gameLoop (M : JSMath α) (w h rnd : α) (s : State α) : State α :=
  if !s.running || s.paused then s else moveBall M w h rnd (movePaddles h s)

/-- States of a match: what `resetGame()` or `startGame()` produce, closed under
`moveBall()` ticks taken while `running` is true and under `movePaddles()`. -/
inductive Reachable (M : JSMath α) : State α → Prop
  | reset (w h rnd : α) (s0 s : State α) :
      resetGame M w h rnd s0 = some s → Reachable M s
  | start (w h rnd : α) (mode difficulty : String) (s0 s : State α) :
      startGame M w h rnd mode difficulty s0 = some s → Reachable M s
  | ball (w h rnd : α) (s : State α) :
      Reachable M s → s.running = true → Reachable M (moveBall M w h rnd s)
  | paddles (h : α) (s : State α) :
      Reachable M s → Reachable M (movePaddles h s)


/-- A medium single-player match just started on an 800 by 400 table, served level. -/
def kickoff : State α :=
  { (initialState : State α) with
    running := true, ballSpeed := 10, currentSpeed := 10, aiSpeed := 8, aiReaction := 4 / 5,
    paddle1Y := 160, paddle2Y := 160, ballX := 392, ballY := 192, dx := 10, dy := 0 }

/-- A medium single-player match just started on a narrow 60 by 400 table, served
level: the ball starts between the two paddles, one frame from the right one. -/
def narrowKickoff : State α :=
  { (kickoff : State α) with ballX := 22 }

/-- The narrow match one frame later: the ball has been returned level by the right
paddle and is one frame from the left one. -/
def narrowReturn : State α :=
  { (kickoff : State α) with
    ballX := 18, dx := -(103 / 10), currentSpeed := 103 / 10, rallyCount := 1,
    trace := [Cue.paddleHitRight] }

/-- A level ball (`dy = 0`) resting at `y = 500` near the bottom of a table that was
600 high; the table is then resized to a height of 400. -/
def levelLow : State α :=
  { (kickoff : State α) with ballX := 392, ballY := 500, dx := 10, dy := 0 }

/-- A ball dropping onto the bottom wall of a 400 high table. -/
def falling : State α :=
  { (kickoff : State α) with ballX := 392, ballY := 380, dx := 6, dy := 8 }

/-- A ball rising onto the top wall. -/
def rising : State α :=
  { (kickoff : State α) with ballX := 392, ballY := 3, dx := 6, dy := -8 }

/-- The scenario of the specification: ball at the centre `(w/2, h/2)` of the 800 by
400 table with velocity `(5, 0)`. -/
def centred : State α :=
  { (kickoff : State α) with ballX := 400, ballY := 200, dx := 5, dy := 0 }

/-- A match in which player 1 has just reached 7 points against 3, with a stored high
score of 5. -/
def matchPoint : State α :=
  { (kickoff : State α) with
    p1Score := 7, p2Score := 3, highScore := JSNumber.int 5, stored := some "5" }

/-- The same match point in a browser whose stored high-score item is the text `abc`:
`highScore` is what `loadHighScore()` read from it. -/
def corruptMatchPoint : State α :=
  { loadHighScore { (kickoff : State α) with stored := some "abc" } with
    p1Score := 7, p2Score := 3 }

/-- A single-player frame with the ball moving right, the AI paddle at `y = 0`, the
given AI parameters, and the ball at height `ballY`. -/
def chasing (aiSpeed aiReaction ballY : α) : State α :=
  { (kickoff : State α) with
    aiSpeed := aiSpeed, aiReaction := aiReaction, paddle2Y := 0, ballY := ballY, dx := 10 }

/-- A medium single-player match just started on a 25600 wide, 400 high table. -/
def wideKickoff : State α :=
  { (kickoff : State α) with ballX := 12792 }

/-- The wide match after `n` points for player 1, each scored because the table was
made narrower than the ball's position while the ball, re-served level to the left at
`ballX = x` on a 1000 high table, was in flight below both paddles. -/
def shrinking (n : Nat) (x : α) : State α :=
  { (kickoff : State α) with
    p1Score := n, ballX := x, ballY := 492, dx := -10, dy := 0,
    trace := List.replicate n Cue.score }

/-- The wide match after the seventh point of player 1: the match is over. -/
def finished : State α :=
  { (kickoff : State α) with
    running := false, p1Score := 7, ballX := 82, ballY := 492, dx := -10, dy := 0,
    highScore := JSNumber.int 7, stored := some "7",
    trace := List.replicate 7 Cue.score ++ [Cue.gameOver] }

/-- The same match a few frames later: the ball flies level to the left, has passed
below the left paddle and is about to leave through the left edge. -/
def missedLeft : State α :=
  { (kickoff : State α) with ballX := -10, ballY := 192, dx := -10, dy := 0, paddle1Y := 0 }

/-- A rally frame in which the ball comes down onto the lower end of the left paddle:
paddle at `y = 100` (box 100..180), ball box about to be at `y = 179..195`. -/
def edgeHit : State α :=
  { (kickoff : State α) with ballX := 30, ballY := 175, dx := -5, dy := 4, paddle1Y := 100 }

/-- The mirror image: the ball is about to leave through the right edge of the
800 wide table, above the right paddle. -/
def missedRight : State α :=
  { (kickoff : State α) with ballX := 795, ballY := 192, dx := 10, dy := 0, paddle2Y := 320 }

end Engine

/-- The value `moveAI()` assigns to `state.aiTargetY` when the ball moves right. -/
def aiTarget {α : Type} [LinearOrderedField α] (s : State α) : α :=
  s.ballY + BALL_SIZE / 2 - PADDLE_HEIGHT / 2

/-- The local `diff` of the tracking branch of `moveAI()`. -/
def aiDiff {α : Type} [LinearOrderedField α] (s : State α) : α :=
  aiTarget s - s.paddle2Y

/-- The state of `moveBall()` when it reaches the scoring test (line 308), after the
move, the wall bounce and the two paddle steps. -/
def beforeScoring {α : Type} [LinearOrderedField α] (M : JSMath α) (w h : α) (s : State α) :
    State α :=
  rightPaddle M w (leftPaddle M (wallBounce h (integrate s)))

/-- The guard under which `moveBall()` resolves a hit on the left paddle. -/
def leftHit {α : Type} [LinearOrderedField α] (s : State α) : Bool :=
  checkPaddleCollision s PADDLE_MARGIN s.paddle1Y && decide (s.dx < 0)

/-- The guard under which `moveBall()` resolves a hit on the right paddle. -/
def rightHit {α : Type} [LinearOrderedField α] (w : α) (s : State α) : Bool :=
  checkPaddleCollision s (w - PADDLE_MARGIN - PADDLE_WIDTH) s.paddle2Y && decide (s.dx > 0)

/-- The guard under which `moveBall()` awards a point. -/
def pointScored {α : Type} [LinearOrderedField α] (w : α) (s : State α) : Bool :=
  decide (s.ballX ≤ -BALL_SIZE) || decide (s.ballX ≥ w)

/-- States `t` that differ from `s` at most in the paddle fields `paddle1Y`, `paddle2Y`
and `aiTargetY`. -/
def PaddleOnly {α : Type} (s t : State α) : Prop :=
  ∃ a b c : α, t = { s with paddle1Y := a, paddle2Y := b, aiTargetY := c }

/-- The data-model invariant `currentSpeed == sqrt(dx² + dy²)`. -/
def SpeedInv {α : Type} [LinearOrderedField α] (M : JSMath α) (s : State α) : Prop :=
  s.currentSpeed = M.sqrt (s.dx * s.dx + s.dy * s.dy)

/-- The number 1 for a key that is held and 0 for one that is not. -/
def held {α : Type} [LinearOrderedField α] (b : Bool) : α := if b then 1 else 0

/-- The guard of line 369 of `movePaddles()`: the key W is held. -/
def upKeys {α : Type} (s : State α) : Bool := s.keysDown "w" || s.keysDown "W"

/-- The guard of line 370 of `movePaddles()`: the key S is held. -/
def downKeys {α : Type} (s : State α) : Bool := s.keysDown "s" || s.keysDown "S"

/-- A single-player frame in which the player holds both keys that move paddle 1
down, S and the down arrow. -/
def bothDown {α : Type} [LinearOrderedField α] : State α :=
  { (kickoff : State α) with keysDown := fun k => k == "s" || k == "ArrowDown" }

/-- A two-player frame in which player 1 holds S and player 2 holds the up arrow. -/
def duel {α : Type} [LinearOrderedField α] : State α :=
  { (kickoff : State α) with mode := "2P", keysDown := fun k => k == "s" || k == "ArrowUp" }

/-! ## Paddle clamp -/

section Paddles

variable {α : Type} [LinearOrderedField α]

theorem clamp_mem (val lo hi : α) (hle : lo ≤ hi) :
    lo ≤ clamp val lo hi ∧ clamp val lo hi ≤ hi := by
  unfold clamp
  exact ⟨le_max_left _ _, max_le hle (min_le_left _ _)⟩

theorem clamp_of_lt (val lo hi : α) (hlt : hi < lo) : clamp val lo hi = lo := by
  unfold clamp
  exact max_eq_left (le_trans (min_le_left _ _) hlt.le)

/-- C1 (as stated, refuted): on a table of height 50, lower than a paddle, one call of
`movePaddles` leaves `paddle1Y = 0`, which is above `h - PADDLE_HEIGHT = -30`; so the
bound `y <= h - PADDLE_HEIGHT` does not hold for every table height `h > 0`. -/
theorem movePaddles_clamp_fails_short_table :
    ¬ (∀ (s : State ℚ) (h : ℚ), 0 < h →
      (0 ≤ (movePaddles h s).paddle1Y ∧ (movePaddles h s).paddle1Y ≤ h - PADDLE_HEIGHT) ∧
      (0 ≤ (movePaddles h s).paddle2Y ∧ (movePaddles h s).paddle2Y ≤ h - PADDLE_HEIGHT)) := by
  intro hall
  have h1 := (hall initialState 50 (by norm_num)).1.2
  have h2 : (movePaddles (50 : ℚ) initialState).paddle1Y = 0 := by
    show clamp _ 0 (50 - PADDLE_HEIGHT) = 0
    exact clamp_of_lt _ _ _ (by norm_num [PADDLE_HEIGHT])
  rw [h2] at h1
  norm_num [PADDLE_HEIGHT] at h1

/-- C1 (amended): for every state, every held-key set, every mode and every table
height `h >= PADDLE_HEIGHT`, after one call of `movePaddles` both `paddle1Y` and
`paddle2Y` lie in `[0, h - PADDLE_HEIGHT]`. -/
theorem movePaddles_clamp (s : State α) (h : α) (hh : PADDLE_HEIGHT ≤ h) :
    (0 ≤ (movePaddles h s).paddle1Y ∧ (movePaddles h s).paddle1Y ≤ h - PADDLE_HEIGHT) ∧
    (0 ≤ (movePaddles h s).paddle2Y ∧ (movePaddles h s).paddle2Y ≤ h - PADDLE_HEIGHT) := by
  have hle : (0 : α) ≤ h - PADDLE_HEIGHT := sub_nonneg.mpr hh
  exact ⟨clamp_mem _ _ _ hle, clamp_mem _ _ _ hle⟩

theorem movePaddles_clamp_witness :
    (PADDLE_HEIGHT : ℚ) ≤ 400 ∧
    ((0 ≤ (movePaddles (400 : ℚ) initialState).paddle1Y ∧
      (movePaddles (400 : ℚ) initialState).paddle1Y ≤ 400 - PADDLE_HEIGHT) ∧
     (0 ≤ (movePaddles (400 : ℚ) initialState).paddle2Y ∧
      (movePaddles (400 : ℚ) initialState).paddle2Y ≤ 400 - PADDLE_HEIGHT)) :=
  ⟨by norm_num [PADDLE_HEIGHT], movePaddles_clamp initialState 400 (by norm_num [PADDLE_HEIGHT])⟩

end Paddles

/-! ## Scores and the end of the match -/

section Match

variable {α : Type} [LinearOrderedField α]

omit [LinearOrderedField α] in
theorem saveHighScore_frame (score : JSNumber) (s : State α) :
    (saveHighScore score s).p1Score = s.p1Score ∧ (saveHighScore score s).p2Score = s.p2Score ∧
    (saveHighScore score s).running = s.running := by
  unfold saveHighScore
  split_ifs <;> exact ⟨rfl, rfl, rfl⟩

omit [LinearOrderedField α] in
theorem checkGameOver_fst (s : State α) :
    (checkGameOver s).1 = true ↔ (s.p1Score ≥ WIN_SCORE ∨ s.p2Score ≥ WIN_SCORE) := by
  unfold checkGameOver
  split_ifs with hc <;> simp [hc]

omit [LinearOrderedField α] in
theorem checkGameOver_scores (s : State α) :
    (checkGameOver s).2.p1Score = s.p1Score ∧ (checkGameOver s).2.p2Score = s.p2Score := by
  unfold checkGameOver
  split_ifs
  · exact ⟨(saveHighScore_frame _ _).1, (saveHighScore_frame _ _).2.1⟩
  · exact ⟨rfl, rfl⟩

omit [LinearOrderedField α] in
theorem checkGameOver_running (s : State α) :
    (checkGameOver s).2.running = (s.running && !(checkGameOver s).1) := by
  unfold checkGameOver
  split_ifs
  · simp [(saveHighScore_frame _ _).2.2]
  · simp

theorem integrate_frame (s : State α) :
    (integrate s).p1Score = s.p1Score ∧ (integrate s).p2Score = s.p2Score ∧
    (integrate s).running = s.running := ⟨rfl, rfl, rfl⟩

theorem wallBounce_frame (h : α) (s : State α) :
    (wallBounce h s).p1Score = s.p1Score ∧ (wallBounce h s).p2Score = s.p2Score ∧
    (wallBounce h s).running = s.running := by
  unfold wallBounce
  split_ifs <;> exact ⟨rfl, rfl, rfl⟩

theorem leftPaddle_frame (M : JSMath α) (s : State α) :
    (leftPaddle M s).p1Score = s.p1Score ∧ (leftPaddle M s).p2Score = s.p2Score ∧
    (leftPaddle M s).running = s.running := by
  unfold leftPaddle
  dsimp only
  split_ifs <;> exact ⟨rfl, rfl, rfl⟩

theorem rightPaddle_frame (M : JSMath α) (w : α) (s : State α) :
    (rightPaddle M w s).p1Score = s.p1Score ∧ (rightPaddle M w s).p2Score = s.p2Score ∧
    (rightPaddle M w s).running = s.running := by
  unfold rightPaddle
  dsimp only
  split_ifs <;> exact ⟨rfl, rfl, rfl⟩

theorem prePoint_frame (M : JSMath α) (w h : α) (s : State α) :
    (rightPaddle M w (leftPaddle M (wallBounce h (integrate s)))).p1Score = s.p1Score ∧
    (rightPaddle M w (leftPaddle M (wallBounce h (integrate s)))).p2Score = s.p2Score ∧
    (rightPaddle M w (leftPaddle M (wallBounce h (integrate s)))).running = s.running := by
  obtain ⟨a1, a2, a3⟩ := rightPaddle_frame M w (leftPaddle M (wallBounce h (integrate s)))
  obtain ⟨b1, b2, b3⟩ := leftPaddle_frame M (wallBounce h (integrate s))
  obtain ⟨c1, c2, c3⟩ := wallBounce_frame h (integrate s)
  obtain ⟨d1, d2, d3⟩ := integrate_frame s
  exact ⟨by rw [a1, b1, c1, d1], by rw [a2, b2, c2, d2], by rw [a3, b3, c3, d3]⟩

theorem afterPoint_frame (M : JSMath α) (w h rnd direction : α) (s : State α) :
    (afterPoint M w h rnd direction s).p1Score = s.p1Score ∧
    (afterPoint M w h rnd direction s).p2Score = s.p2Score ∧
    ((afterPoint M w h rnd direction s).running =
      (s.running && !decide (s.p1Score ≥ WIN_SCORE ∨ s.p2Score ≥ WIN_SCORE))) := by
  unfold afterPoint
  dsimp only
  have hs := checkGameOver_scores
    ({ s with trace := s.trace ++ [Cue.score], currentSpeed := s.ballSpeed } : State α)
  have hr := checkGameOver_running
    ({ s with trace := s.trace ++ [Cue.score], currentSpeed := s.ballSpeed } : State α)
  have hf := checkGameOver_fst
    ({ s with trace := s.trace ++ [Cue.score], currentSpeed := s.ballSpeed } : State α)
  split_ifs with hc
  · refine ⟨hs.1, hs.2, ?_⟩
    rw [hr, hc]
    have := hf.mp hc
    simp only [] at this
    simp [this]
  · refine ⟨hs.1, hs.2, ?_⟩
    show (checkGameOver _).2.running = _
    rw [hr]
    have hn : ¬ (s.p1Score ≥ WIN_SCORE ∨ s.p2Score ≥ WIN_SCORE) := fun hx => hc (hf.mpr hx)
    simp [hc, hn]

/-- What one `moveBall()` tick does to the scores and to `running`. -/
theorem moveBall_scores (M : JSMath α) (w h rnd : α) (s : State α) :
    ((moveBall M w h rnd s).p1Score = s.p1Score ∧ (moveBall M w h rnd s).p2Score = s.p2Score ∧
      (moveBall M w h rnd s).running = s.running) ∨
    ((moveBall M w h rnd s).p1Score = s.p1Score + 1 ∧
      (moveBall M w h rnd s).p2Score = s.p2Score ∧
      ((moveBall M w h rnd s).running =
        (s.running && !decide (s.p1Score + 1 ≥ WIN_SCORE ∨ s.p2Score ≥ WIN_SCORE)))) ∨
    ((moveBall M w h rnd s).p1Score = s.p1Score ∧
      (moveBall M w h rnd s).p2Score = s.p2Score + 1 ∧
      ((moveBall M w h rnd s).running =
        (s.running && !decide (s.p1Score ≥ WIN_SCORE ∨ s.p2Score + 1 ≥ WIN_SCORE)))) := by
  obtain ⟨e1, e2, e3⟩ := prePoint_frame M w h s
  unfold moveBall scoring
  split_ifs with h1 h2
  · right; right
    obtain ⟨f1, f2, f3⟩ := afterPoint_frame M w h rnd 1
      { rightPaddle M w (leftPaddle M (wallBounce h (integrate s))) with
        p2Score := (rightPaddle M w (leftPaddle M (wallBounce h (integrate s)))).p2Score + 1 }
    refine ⟨f1.trans e1, f2.trans (by rw [e2]), f3.trans ?_⟩
    simp only [e1, e2, e3]
  · right; left
    obtain ⟨f1, f2, f3⟩ := afterPoint_frame M w h rnd (-1)
      { rightPaddle M w (leftPaddle M (wallBounce h (integrate s))) with
        p1Score := (rightPaddle M w (leftPaddle M (wallBounce h (integrate s)))).p1Score + 1 }
    refine ⟨f1.trans (by rw [e1]), f2.trans e2, f3.trans ?_⟩
    simp only [e1, e2, e3]
  · left
    exact ⟨e1, e2, e3⟩

theorem resetGame_scores (M : JSMath α) (w h rnd : α) (s0 s : State α)
    (hs : resetGame M w h rnd s0 = some s) : s.p1Score = 0 ∧ s.p2Score = 0 := by
  unfold resetGame at hs
  split at hs
  · exact absurd hs (by simp)
  · cases hs
    exact ⟨rfl, rfl⟩

theorem startGame_scores (M : JSMath α) (w h rnd : α) (mode difficulty : String)
    (s0 s : State α) (hs : startGame M w h rnd mode difficulty s0 = some s) :
    s.p1Score = 0 ∧ s.p2Score = 0 := by
  unfold startGame at hs
  rcases hr : resetGame M w h rnd { s0 with mode := mode, difficulty := difficulty } with _ | s1
  · rw [hr] at hs
    exact absurd hs (by simp)
  · rw [hr] at hs
    cases hs
    exact resetGame_scores M w h rnd _ s1 hr

theorem moveAI_frame (h : α) (s : State α) :
    (moveAI h s).p1Score = s.p1Score ∧ (moveAI h s).p2Score = s.p2Score ∧
    (moveAI h s).running = s.running := by
  unfold moveAI
  dsimp only
  split_ifs <;> exact ⟨rfl, rfl, rfl⟩

theorem moveP1Keys_frame (s : State α) :
    (moveP1Keys s).p1Score = s.p1Score ∧ (moveP1Keys s).p2Score = s.p2Score ∧
    (moveP1Keys s).running = s.running := by
  unfold moveP1Keys
  dsimp only
  split_ifs <;> exact ⟨rfl, rfl, rfl⟩

theorem moveP1Arrows_frame (s : State α) :
    (moveP1Arrows s).p1Score = s.p1Score ∧ (moveP1Arrows s).p2Score = s.p2Score ∧
    (moveP1Arrows s).running = s.running := by
  unfold moveP1Arrows
  dsimp only
  split_ifs <;> exact ⟨rfl, rfl, rfl⟩

theorem moveP2Arrows_frame (s : State α) :
    (moveP2Arrows s).p1Score = s.p1Score ∧ (moveP2Arrows s).p2Score = s.p2Score ∧
    (moveP2Arrows s).running = s.running := by
  unfold moveP2Arrows
  dsimp only
  split_ifs <;> exact ⟨rfl, rfl, rfl⟩

theorem movePaddlesRaw_frame (h : α) (s : State α) :
    (movePaddlesRaw h s).p1Score = s.p1Score ∧ (movePaddlesRaw h s).p2Score = s.p2Score ∧
    (movePaddlesRaw h s).running = s.running := by
  obtain ⟨a1, a2, a3⟩ := moveP1Keys_frame s
  have hb : ∀ u : State α,
      (if u.mode = "1P" then moveAI h (moveP1Arrows u) else u).p1Score = u.p1Score ∧
      (if u.mode = "1P" then moveAI h (moveP1Arrows u) else u).p2Score = u.p2Score ∧
      (if u.mode = "1P" then moveAI h (moveP1Arrows u) else u).running = u.running := by
    intro u
    split_ifs
    · obtain ⟨b1, b2, b3⟩ := moveAI_frame h (moveP1Arrows u)
      obtain ⟨c1, c2, c3⟩ := moveP1Arrows_frame u
      exact ⟨b1.trans c1, b2.trans c2, b3.trans c3⟩
    · exact ⟨rfl, rfl, rfl⟩
  have hc : ∀ u : State α,
      (if u.mode = "2P" then moveP2Arrows u else u).p1Score = u.p1Score ∧
      (if u.mode = "2P" then moveP2Arrows u else u).p2Score = u.p2Score ∧
      (if u.mode = "2P" then moveP2Arrows u else u).running = u.running := by
    intro u
    split_ifs
    · exact moveP2Arrows_frame u
    · exact ⟨rfl, rfl, rfl⟩
  obtain ⟨b1, b2, b3⟩ := hb (moveP1Keys s)
  obtain ⟨c1, c2, c3⟩ := hc (if (moveP1Keys s).mode = "1P" then moveAI h (moveP1Arrows (moveP1Keys s))
    else moveP1Keys s)
  exact ⟨c1.trans (b1.trans a1), c2.trans (b2.trans a2), c3.trans (b3.trans a3)⟩

theorem movePaddles_frame (h : α) (s : State α) :
    (movePaddles h s).p1Score = s.p1Score ∧ (movePaddles h s).p2Score = s.p2Score ∧
    (movePaddles h s).running = s.running :=
  movePaddlesRaw_frame h s

/-- While a match is running both scores are in `[0, WIN_SCORE)`. -/
theorem reachable_scores (M : JSMath α) (s : State α) (hr : Reachable M s) :
    s.running = true → s.p1Score < WIN_SCORE ∧ s.p2Score < WIN_SCORE := by
  induction hr with
  | reset w h rnd s0 s hs =>
    intro _
    obtain ⟨h1, h2⟩ := resetGame_scores M w h rnd s0 s hs
    rw [h1, h2]
    exact ⟨by decide, by decide⟩
  | start w h rnd mode difficulty s0 s hs =>
    intro _
    obtain ⟨h1, h2⟩ := startGame_scores M w h rnd mode difficulty s0 s hs
    rw [h1, h2]
    exact ⟨by decide, by decide⟩
  | ball w h rnd s _ hrun ih =>
    intro hrun2
    obtain ⟨i1, i2⟩ := ih hrun
    rcases moveBall_scores M w h rnd s with ⟨a1, a2, _⟩ | ⟨a1, a2, a3⟩ | ⟨a1, a2, a3⟩
    · rw [a1, a2]
      exact ⟨i1, i2⟩
    · rw [a3, hrun] at hrun2
      simp only [Bool.true_and, Bool.not_eq_true', decide_eq_false_iff_not, not_or, not_le,
        ge_iff_le] at hrun2
      rw [a1, a2]
      exact hrun2
    · rw [a3, hrun] at hrun2
      simp only [Bool.true_and, Bool.not_eq_true', decide_eq_false_iff_not, not_or, not_le,
        ge_iff_le] at hrun2
      rw [a1, a2]
      exact hrun2
  | paddles h s _ ih =>
    intro hrun
    obtain ⟨a1, a2, a3⟩ := movePaddles_frame h s
    rw [a1, a2]
    exact ih (a3 ▸ hrun)

end Match

/-! ## The serve after a point -/

section Serve

theorem serve_cos_pos (rnd : ℝ) (hr0 : 0 ≤ rnd) (hr1 : rnd < 1) :
    0 < Real.cos ((rnd * 60 - 30) * (Real.pi / 180)) := by
  have hpi := Real.pi_pos
  apply Real.cos_pos_of_mem_Ioo
  constructor
  · nlinarith
  · nlinarith

/-- For every draw of `Math.random()`, the serve after a point that does not end the
match has `dx > 0` when the ball left on the left and `dx < 0` when it left on the
right, whenever the base speed is positive. -/
theorem scoring_serve_direction (w h rnd : ℝ) (u : State ℝ) (hr0 : 0 ≤ rnd) (hr1 : rnd < 1)
    (hsp : 0 < u.ballSpeed) :
    (u.ballX ≤ -BALL_SIZE → ¬ (u.p1Score ≥ WIN_SCORE ∨ u.p2Score + 1 ≥ WIN_SCORE) →
      0 < (scoring ⟨Real.sqrt, Real.cos, Real.sin, Real.pi⟩ w h rnd u).dx) ∧
    (¬ u.ballX ≤ -BALL_SIZE → u.ballX ≥ w →
      ¬ (u.p1Score + 1 ≥ WIN_SCORE ∨ u.p2Score ≥ WIN_SCORE) →
      (scoring ⟨Real.sqrt, Real.cos, Real.sin, Real.pi⟩ w h rnd u).dx < 0) := by
  have hc := serve_cos_pos rnd hr0 hr1
  constructor
  · intro hx hn
    simp only [scoring, afterPoint, checkGameOver, if_pos hx, if_neg hn, resetBall]
    simp only [Bool.false_eq_true, if_false, one_mul]
    exact mul_pos hc hsp
  · intro hx hw hn
    simp only [scoring, afterPoint, checkGameOver, if_neg hx, if_pos hw, if_neg hn, resetBall]
    simp only [Bool.false_eq_true, if_false]
    have := mul_pos hc hsp
    linarith

/-- C3 (the code at a failing input): medium match at 0-0 on an 800 by 400 table, the
ball leaves through the left edge (player 1, on the left, loses the point), the
match continues, and with `Math.random() = 1/2` the ball is re-served with
`dx = +10`, to the right, away from the side that lost the point; mirrored, after
leaving through the right edge it is re-served with `dx = -10`, to the left. -/
theorem serve_goes_to_scorer :
    ((moveBall ⟨Real.sqrt, Real.cos, Real.sin, Real.pi⟩ 800 400 (1 / 2)
        (missedLeft : State ℝ)).p2Score = 1 ∧
     (moveBall ⟨Real.sqrt, Real.cos, Real.sin, Real.pi⟩ 800 400 (1 / 2)
        (missedLeft : State ℝ)).running = true ∧
     (moveBall ⟨Real.sqrt, Real.cos, Real.sin, Real.pi⟩ 800 400 (1 / 2)
        (missedLeft : State ℝ)).dx = 10) ∧
    ((moveBall ⟨Real.sqrt, Real.cos, Real.sin, Real.pi⟩ 800 400 (1 / 2)
        (missedRight : State ℝ)).p1Score = 1 ∧
     (moveBall ⟨Real.sqrt, Real.cos, Real.sin, Real.pi⟩ 800 400 (1 / 2)
        (missedRight : State ℝ)).running = true ∧
     (moveBall ⟨Real.sqrt, Real.cos, Real.sin, Real.pi⟩ 800 400 (1 / 2)
        (missedRight : State ℝ)).dx = -10) := by
  refine ⟨⟨?_, ?_, ?_⟩, ⟨?_, ?_, ?_⟩⟩ <;>
    norm_num [moveBall, integrate, wallBounce, leftPaddle, rightPaddle, scoring, afterPoint,
      checkGameOver, resetBall, missedLeft, missedRight, kickoff, initialState,
      checkPaddleCollision, BALL_SIZE, PADDLE_HEIGHT, PADDLE_WIDTH, PADDLE_MARGIN, WIN_SCORE]

end Serve

/-! ## Deflection -/

section Deflection

/-- Under the overlap test the offset of `deflectBall` is strictly between -6/5 and 6/5:
the ball box can stick out by up to its own size beyond either end of the paddle. -/
theorem deflectOffset_bound {α : Type} [LinearOrderedField α] (s : State α) (paddleX paddleY : α)
    (hc : checkPaddleCollision s paddleX paddleY = true) :
    -(6 / 5) < deflectOffset s paddleY ∧ deflectOffset s paddleY < 6 / 5 := by
  simp only [checkPaddleCollision, Bool.and_eq_true, decide_eq_true_eq, PADDLE_HEIGHT,
    BALL_SIZE] at hc
  obtain ⟨⟨_, h3⟩, h4⟩ := hc
  unfold deflectOffset
  simp only [PADDLE_HEIGHT, BALL_SIZE]
  constructor
  · rw [lt_div_iff₀ (by norm_num)]
    linarith
  · rw [div_lt_iff₀ (by norm_num)]
    linarith

/-- C4 (the code at a failing input): on an 800 by 400 table the ball box reaches
`y = 179` beside the left paddle at `y = 100` while moving left; `moveBall` resolves the
hit (`rallyCount` becomes 1, the left-paddle cue is emitted), and the offset computed by
`deflectBall` is `47/40 > 1`, so the deflection angle `offset * 60` degrees is above
60 degrees. -/
theorem deflect_offset_exceeds_one :
    checkPaddleCollision (wallBounce 400 (integrate (edgeHit : State ℝ))) PADDLE_MARGIN
      (wallBounce 400 (integrate (edgeHit : State ℝ))).paddle1Y = true ∧
    (wallBounce 400 (integrate (edgeHit : State ℝ))).dx < 0 ∧
    (moveBall ⟨Real.sqrt, Real.cos, Real.sin, Real.pi⟩ 800 400 (1 / 2)
      (edgeHit : State ℝ)).rallyCount = 1 ∧
    (moveBall ⟨Real.sqrt, Real.cos, Real.sin, Real.pi⟩ 800 400 (1 / 2)
      (edgeHit : State ℝ)).trace = [Cue.paddleHitLeft] ∧
    deflectOffset
      { wallBounce 400 (integrate (edgeHit : State ℝ)) with
        ballX := PADDLE_MARGIN + PADDLE_WIDTH
        dx := |(wallBounce 400 (integrate (edgeHit : State ℝ))).dx| }
      (wallBounce 400 (integrate (edgeHit : State ℝ))).paddle1Y = 47 / 40 ∧
    ¬ (deflectOffset
      { wallBounce 400 (integrate (edgeHit : State ℝ)) with
        ballX := PADDLE_MARGIN + PADDLE_WIDTH
        dx := |(wallBounce 400 (integrate (edgeHit : State ℝ))).dx| }
      (wallBounce 400 (integrate (edgeHit : State ℝ))).paddle1Y ≤ 1) ∧
    60 * (Real.pi / 180) < deflectAngle ⟨Real.sqrt, Real.cos, Real.sin, Real.pi⟩
      { wallBounce 400 (integrate (edgeHit : State ℝ)) with
        ballX := PADDLE_MARGIN + PADDLE_WIDTH
        dx := |(wallBounce 400 (integrate (edgeHit : State ℝ))).dx| }
      (wallBounce 400 (integrate (edgeHit : State ℝ))).paddle1Y := by
  have hpi := Real.pi_pos
  refine ⟨?_, ?_, ?_, ?_, ?_, ?_, ?_⟩
  · norm_num [integrate, wallBounce, edgeHit, kickoff, initialState, checkPaddleCollision,
      BALL_SIZE, PADDLE_HEIGHT, PADDLE_WIDTH, PADDLE_MARGIN]
  · norm_num [integrate, wallBounce, edgeHit, kickoff, initialState, BALL_SIZE]
  · norm_num [moveBall, integrate, wallBounce, leftPaddle, rightPaddle, scoring, deflectBall,
      onPaddleHit, edgeHit, kickoff, initialState, checkPaddleCollision,
      BALL_SIZE, PADDLE_HEIGHT, PADDLE_WIDTH, PADDLE_MARGIN]
  · norm_num [moveBall, integrate, wallBounce, leftPaddle, rightPaddle, scoring, deflectBall,
      onPaddleHit, edgeHit, kickoff, initialState, checkPaddleCollision,
      BALL_SIZE, PADDLE_HEIGHT, PADDLE_WIDTH, PADDLE_MARGIN]
  · norm_num [integrate, wallBounce, edgeHit, kickoff, initialState, deflectOffset,
      BALL_SIZE, PADDLE_HEIGHT, PADDLE_WIDTH, PADDLE_MARGIN]
  · norm_num [integrate, wallBounce, edgeHit, kickoff, initialState, deflectOffset,
      BALL_SIZE, PADDLE_HEIGHT, PADDLE_WIDTH, PADDLE_MARGIN]
  · norm_num [integrate, wallBounce, edgeHit, kickoff, initialState, deflectOffset,
      deflectAngle, BALL_SIZE, PADDLE_HEIGHT, PADDLE_WIDTH, PADDLE_MARGIN]
    nlinarith

theorem deflectNewSpeed_pos (s : State ℝ) :
    0 < deflectNewSpeed ⟨Real.sqrt, Real.cos, Real.sin, Real.pi⟩ s := by
  unfold deflectNewSpeed SPEED_INCREMENT
  have := Real.sqrt_nonneg (s.dx * s.dx + s.dy * s.dy)
  dsimp only
  linarith

theorem abs_dir_mul (d c n : ℝ) (hd : d ≠ 0) (hc : 0 < c) (hn : 0 < n) :
    |(if d > 0 then (1 : ℝ) else -1) * c * n| = c * n ∧
    (0 < (if d > 0 then (1 : ℝ) else -1) * c * n ↔ 0 < d) ∧
    ((if d > 0 then (1 : ℝ) else -1) * c * n < 0 ↔ d < 0) := by
  have hcn : 0 < c * n := mul_pos hc hn
  rcases lt_or_gt_of_ne hd with hneg | hpos
  · have h1 : ¬ d > 0 := not_lt.mpr hneg.le
    rw [if_neg h1]
    have e : (-1 : ℝ) * c * n = -(c * n) := by ring
    rw [e, abs_neg, abs_of_pos hcn]
    exact ⟨rfl, ⟨fun hx => by linarith, fun hx => by linarith⟩,
      ⟨fun _ => hneg, fun _ => by linarith⟩⟩
  · rw [if_pos hpos]
    have e : (1 : ℝ) * c * n = c * n := by ring
    rw [e, abs_of_pos hcn]
    exact ⟨rfl, ⟨fun _ => hpos, fun _ => hcn⟩, ⟨fun hx => by linarith, fun hx => by linarith⟩⟩

/-- C5: over the reals, for a state with `dx` non-zero, `deflectBall(paddleY)` with
`newSpeed = sqrt(dx^2 + dy^2) + SPEED_INCREMENT`: with the ball centre at the paddle
centre it gives `dy = 0` and `|dx| = newSpeed`; with the ball centre at the paddle's top
edge (offset -1) it gives `dy = -sin(pi/3) * newSpeed` and `|dx| = cos(pi/3) * newSpeed`;
at the bottom edge (offset +1) `dy = sin(pi/3) * newSpeed` and the same `|dx|`; in the
three cases the sign of `dx` is unchanged. -/
theorem deflect_centre_and_edges (s : State ℝ) (paddleY : ℝ) (hdx : s.dx ≠ 0) :
    deflectNewSpeed ⟨Real.sqrt, Real.cos, Real.sin, Real.pi⟩ s =
      Real.sqrt (s.dx ^ 2 + s.dy ^ 2) + 3 / 10 ∧
    (s.ballY + BALL_SIZE / 2 = paddleY + PADDLE_HEIGHT / 2 →
      (deflectBall ⟨Real.sqrt, Real.cos, Real.sin, Real.pi⟩ s paddleY).dy = 0 ∧
      |(deflectBall ⟨Real.sqrt, Real.cos, Real.sin, Real.pi⟩ s paddleY).dx| =
        deflectNewSpeed ⟨Real.sqrt, Real.cos, Real.sin, Real.pi⟩ s ∧
      (0 < (deflectBall ⟨Real.sqrt, Real.cos, Real.sin, Real.pi⟩ s paddleY).dx ↔ 0 < s.dx) ∧
      ((deflectBall ⟨Real.sqrt, Real.cos, Real.sin, Real.pi⟩ s paddleY).dx < 0 ↔ s.dx < 0)) ∧
    (s.ballY + BALL_SIZE / 2 = paddleY →
      deflectOffset s paddleY = -1 ∧
      (deflectBall ⟨Real.sqrt, Real.cos, Real.sin, Real.pi⟩ s paddleY).dy =
        -Real.sin (Real.pi / 3) * deflectNewSpeed ⟨Real.sqrt, Real.cos, Real.sin, Real.pi⟩ s ∧
      |(deflectBall ⟨Real.sqrt, Real.cos, Real.sin, Real.pi⟩ s paddleY).dx| =
        Real.cos (Real.pi / 3) * deflectNewSpeed ⟨Real.sqrt, Real.cos, Real.sin, Real.pi⟩ s ∧
      (0 < (deflectBall ⟨Real.sqrt, Real.cos, Real.sin, Real.pi⟩ s paddleY).dx ↔ 0 < s.dx) ∧
      ((deflectBall ⟨Real.sqrt, Real.cos, Real.sin, Real.pi⟩ s paddleY).dx < 0 ↔ s.dx < 0)) ∧
    (s.ballY + BALL_SIZE / 2 = paddleY + PADDLE_HEIGHT →
      deflectOffset s paddleY = 1 ∧
      (deflectBall ⟨Real.sqrt, Real.cos, Real.sin, Real.pi⟩ s paddleY).dy =
        Real.sin (Real.pi / 3) * deflectNewSpeed ⟨Real.sqrt, Real.cos, Real.sin, Real.pi⟩ s ∧
      |(deflectBall ⟨Real.sqrt, Real.cos, Real.sin, Real.pi⟩ s paddleY).dx| =
        Real.cos (Real.pi / 3) * deflectNewSpeed ⟨Real.sqrt, Real.cos, Real.sin, Real.pi⟩ s ∧
      (0 < (deflectBall ⟨Real.sqrt, Real.cos, Real.sin, Real.pi⟩ s paddleY).dx ↔ 0 < s.dx) ∧
      ((deflectBall ⟨Real.sqrt, Real.cos, Real.sin, Real.pi⟩ s paddleY).dx < 0 ↔ s.dx < 0)) := by
  have hn := deflectNewSpeed_pos s
  have hcos3 : (0 : ℝ) < Real.cos (Real.pi / 3) := by rw [Real.cos_pi_div_three]; norm_num
  refine ⟨?_, ?_, ?_, ?_⟩
  · unfold deflectNewSpeed SPEED_INCREMENT
    dsimp only
    rw [pow_two, pow_two]
  · intro hc
    have hoff : deflectOffset s paddleY = 0 := by
      unfold deflectOffset
      dsimp only
      rw [hc, sub_self, zero_div]
    have hang : deflectAngle ⟨Real.sqrt, Real.cos, Real.sin, Real.pi⟩ s paddleY = 0 := by
      unfold deflectAngle
      dsimp only
      rw [hoff, zero_mul]
    obtain ⟨a1, a2, a3⟩ := abs_dir_mul s.dx 1 _ hdx one_pos hn
    refine ⟨?_, ?_, ?_, ?_⟩
    · show Real.sin (deflectAngle _ s paddleY) * _ = 0
      rw [hang, Real.sin_zero, zero_mul]
    · show |_ * Real.cos (deflectAngle _ s paddleY) * _| = _
      rw [hang, Real.cos_zero, a1, one_mul]
    · show 0 < _ * Real.cos (deflectAngle _ s paddleY) * _ ↔ _
      rw [hang, Real.cos_zero]
      exact a2
    · show _ * Real.cos (deflectAngle _ s paddleY) * _ < 0 ↔ _
      rw [hang, Real.cos_zero]
      exact a3
  · intro hc
    have hoff : deflectOffset s paddleY = -1 := by
      unfold deflectOffset
      dsimp only
      rw [hc]
      norm_num [PADDLE_HEIGHT]
    have hang : deflectAngle ⟨Real.sqrt, Real.cos, Real.sin, Real.pi⟩ s paddleY =
        -(Real.pi / 3) := by
      unfold deflectAngle
      dsimp only
      rw [hoff]
      ring
    obtain ⟨a1, a2, a3⟩ := abs_dir_mul s.dx _ _ hdx hcos3 hn
    refine ⟨hoff, ?_, ?_, ?_, ?_⟩
    · show Real.sin (deflectAngle _ s paddleY) * _ = _
      rw [hang, Real.sin_neg]
    · show |_ * Real.cos (deflectAngle _ s paddleY) * _| = _
      rw [hang, Real.cos_neg]
      exact a1
    · show 0 < _ * Real.cos (deflectAngle _ s paddleY) * _ ↔ _
      rw [hang, Real.cos_neg]
      exact a2
    · show _ * Real.cos (deflectAngle _ s paddleY) * _ < 0 ↔ _
      rw [hang, Real.cos_neg]
      exact a3
  · intro hc
    have hoff : deflectOffset s paddleY = 1 := by
      unfold deflectOffset
      dsimp only
      rw [hc]
      norm_num [PADDLE_HEIGHT]
    have hang : deflectAngle ⟨Real.sqrt, Real.cos, Real.sin, Real.pi⟩ s paddleY =
        Real.pi / 3 := by
      unfold deflectAngle
      dsimp only
      rw [hoff]
      ring
    obtain ⟨a1, a2, a3⟩ := abs_dir_mul s.dx _ _ hdx hcos3 hn
    refine ⟨hoff, ?_, ?_, ?_, ?_⟩
    · show Real.sin (deflectAngle _ s paddleY) * _ = _
      rw [hang]
    · show |_ * Real.cos (deflectAngle _ s paddleY) * _| = _
      rw [hang]
      exact a1
    · show 0 < _ * Real.cos (deflectAngle _ s paddleY) * _ ↔ _
      rw [hang]
      exact a2
    · show _ * Real.cos (deflectAngle _ s paddleY) * _ < 0 ↔ _
      rw [hang]
      exact a3

theorem deflect_centre_and_edges_witness :
    (kickoff : State ℝ).dx ≠ 0 ∧
    ((kickoff : State ℝ).ballY + BALL_SIZE / 2 = 160 + PADDLE_HEIGHT / 2 ∧
      (deflectBall ⟨Real.sqrt, Real.cos, Real.sin, Real.pi⟩ (kickoff : State ℝ) 160).dy = 0) ∧
    ((kickoff : State ℝ).ballY + BALL_SIZE / 2 = 200 ∧
      deflectOffset (kickoff : State ℝ) 200 = -1) ∧
    ((kickoff : State ℝ).ballY + BALL_SIZE / 2 = 120 + PADDLE_HEIGHT ∧
      deflectOffset (kickoff : State ℝ) 120 = 1) :=
  have hdx : (kickoff : State ℝ).dx ≠ 0 := by norm_num [kickoff, initialState]
  have h1 : (kickoff : State ℝ).ballY + BALL_SIZE / 2 = 160 + PADDLE_HEIGHT / 2 := by
    norm_num [kickoff, initialState, BALL_SIZE, PADDLE_HEIGHT]
  have h2 : (kickoff : State ℝ).ballY + BALL_SIZE / 2 = 200 := by
    norm_num [kickoff, initialState, BALL_SIZE]
  have h3 : (kickoff : State ℝ).ballY + BALL_SIZE / 2 = 120 + PADDLE_HEIGHT := by
    norm_num [kickoff, initialState, BALL_SIZE, PADDLE_HEIGHT]
  ⟨hdx, ⟨h1, ((deflect_centre_and_edges kickoff 160 hdx).2.1 h1).1⟩,
    ⟨h2, ((deflect_centre_and_edges kickoff 200 hdx).2.2.1 h2).1⟩,
    ⟨h3, ((deflect_centre_and_edges kickoff 120 hdx).2.2.2 h3).1⟩⟩

end Deflection

/-! ## Speed within a rally -/

section Rally

theorem sqrt_polar (d a c : ℝ) (hd : d * d = 1) (hc : 0 ≤ c) :
    Real.sqrt (d * Real.cos a * c * (d * Real.cos a * c) + Real.sin a * c * (Real.sin a * c))
      = c := by
  have e : d * Real.cos a * c * (d * Real.cos a * c) + Real.sin a * c * (Real.sin a * c)
      = c ^ 2 := by
    have h1 := Real.cos_sq_add_sin_sq a
    calc d * Real.cos a * c * (d * Real.cos a * c) + Real.sin a * c * (Real.sin a * c)
        = (d * d) * (Real.cos a ^ 2 * c ^ 2) + Real.sin a ^ 2 * c ^ 2 := by ring
      _ = (Real.cos a ^ 2 + Real.sin a ^ 2) * c ^ 2 := by rw [hd]; ring
      _ = c ^ 2 := by rw [h1, one_mul]
  rw [e, Real.sqrt_sq hc]

theorem resetBall_speedInv (w h rnd d : ℝ) (s : State ℝ) (hd : d * d = 1)
    (hc : 0 ≤ s.currentSpeed) :
    SpeedInv ⟨Real.sqrt, Real.cos, Real.sin, Real.pi⟩
      (resetBall ⟨Real.sqrt, Real.cos, Real.sin, Real.pi⟩ w h rnd d s) := by
  unfold SpeedInv resetBall
  exact (sqrt_polar d _ _ hd hc).symm

theorem deflectBall_speedInv (s : State ℝ) (paddleY : ℝ) :
    SpeedInv ⟨Real.sqrt, Real.cos, Real.sin, Real.pi⟩
      (deflectBall ⟨Real.sqrt, Real.cos, Real.sin, Real.pi⟩ s paddleY) := by
  unfold SpeedInv deflectBall
  refine (sqrt_polar _ _ _ ?_ (deflectNewSpeed_pos s).le).symm
  split_ifs <;> norm_num

theorem integrate_speedInv (M : JSMath ℝ) (s : State ℝ) (hs : SpeedInv M s) :
    SpeedInv M (integrate s) := hs

theorem wallBounce_speedInv (M : JSMath ℝ) (h : ℝ) (s : State ℝ) (hs : SpeedInv M s) :
    SpeedInv M (wallBounce h s) ∧ (wallBounce h s).currentSpeed = s.currentSpeed ∧
    (wallBounce h s).rallyCount = s.rallyCount := by
  unfold SpeedInv at hs ⊢
  unfold wallBounce
  split_ifs
  · refine ⟨?_, rfl, rfl⟩
    show s.currentSpeed = M.sqrt (s.dx * s.dx + |s.dy| * |s.dy|)
    rw [abs_mul_abs_self]
    exact hs
  · refine ⟨?_, rfl, rfl⟩
    show s.currentSpeed = M.sqrt (s.dx * s.dx + -|s.dy| * -|s.dy|)
    rw [neg_mul_neg, abs_mul_abs_self]
    exact hs
  · exact ⟨hs, rfl, rfl⟩

theorem leftPaddle_hit {α : Type} [LinearOrderedField α] (M : JSMath α) (s : State α)
    (hh : leftHit s = true) :
    leftPaddle M s = onPaddleHit Cue.paddleHitLeft
      (deflectBall M { s with ballX := PADDLE_MARGIN + PADDLE_WIDTH, dx := |s.dx| } s.paddle1Y) := by
  simp only [leftHit, Bool.and_eq_true, decide_eq_true_eq] at hh
  unfold leftPaddle
  simp only [hh.1, hh.2, if_true]

theorem leftPaddle_nohit {α : Type} [LinearOrderedField α] (M : JSMath α) (s : State α)
    (hh : leftHit s = false) : leftPaddle M s = s := by
  unfold leftPaddle
  dsimp only
  split_ifs with h1 h2
  · simp [leftHit, h1, h2] at hh
  · rfl
  · rfl

theorem rightPaddle_hit {α : Type} [LinearOrderedField α] (M : JSMath α) (w : α) (s : State α)
    (hh : rightHit w s = true) :
    rightPaddle M w s = onPaddleHit Cue.paddleHitRight
      (deflectBall M { s with ballX := w - PADDLE_MARGIN - PADDLE_WIDTH - BALL_SIZE, dx := -|s.dx| }
        s.paddle2Y) := by
  simp only [rightHit, Bool.and_eq_true, decide_eq_true_eq] at hh
  unfold rightPaddle
  simp only [hh.1, hh.2, if_true]

theorem rightPaddle_nohit {α : Type} [LinearOrderedField α] (M : JSMath α) (w : α) (s : State α)
    (hh : rightHit w s = false) : rightPaddle M w s = s := by
  unfold rightPaddle
  dsimp only
  split_ifs with h1 h2
  · simp [rightHit, h1, h2] at hh
  · rfl
  · rfl

theorem scoring_nopoint {α : Type} [LinearOrderedField α] (M : JSMath α) (w h rnd : α)
    (s : State α) (hp : pointScored w s = false) : scoring M w h rnd s = s := by
  simp only [pointScored, Bool.or_eq_false_iff, decide_eq_false_iff_not] at hp
  unfold scoring
  rw [if_neg hp.1, if_neg hp.2]

/-- A resolved left-paddle hit adds exactly `SPEED_INCREMENT` to `currentSpeed`. -/
theorem leftPaddle_speed (s : State ℝ)
    (hs : SpeedInv ⟨Real.sqrt, Real.cos, Real.sin, Real.pi⟩ s) :
    SpeedInv ⟨Real.sqrt, Real.cos, Real.sin, Real.pi⟩
      (leftPaddle ⟨Real.sqrt, Real.cos, Real.sin, Real.pi⟩ s) ∧
    (leftHit s = true →
      (leftPaddle ⟨Real.sqrt, Real.cos, Real.sin, Real.pi⟩ s).currentSpeed
        = s.currentSpeed + SPEED_INCREMENT ∧
      (leftPaddle ⟨Real.sqrt, Real.cos, Real.sin, Real.pi⟩ s).rallyCount = s.rallyCount + 1) := by
  rcases hh : leftHit s with _ | _
  · rw [leftPaddle_nohit _ s hh]
    exact ⟨hs, fun hx => absurd hx (by simp)⟩
  · rw [leftPaddle_hit _ s hh]
    refine ⟨deflectBall_speedInv _ _, fun _ => ⟨?_, rfl⟩⟩
    show Real.sqrt (|s.dx| * |s.dx| + s.dy * s.dy) + SPEED_INCREMENT = _
    rw [abs_mul_abs_self]
    exact congrArg (· + SPEED_INCREMENT) hs.symm

/-- A resolved right-paddle hit adds exactly `SPEED_INCREMENT` to `currentSpeed`. -/
theorem rightPaddle_speed (w : ℝ) (s : State ℝ)
    (hs : SpeedInv ⟨Real.sqrt, Real.cos, Real.sin, Real.pi⟩ s) :
    SpeedInv ⟨Real.sqrt, Real.cos, Real.sin, Real.pi⟩
      (rightPaddle ⟨Real.sqrt, Real.cos, Real.sin, Real.pi⟩ w s) ∧
    (rightHit w s = true →
      (rightPaddle ⟨Real.sqrt, Real.cos, Real.sin, Real.pi⟩ w s).currentSpeed
        = s.currentSpeed + SPEED_INCREMENT ∧
      (rightPaddle ⟨Real.sqrt, Real.cos, Real.sin, Real.pi⟩ w s).rallyCount
        = s.rallyCount + 1) := by
  rcases hh : rightHit w s with _ | _
  · rw [rightPaddle_nohit _ w s hh]
    exact ⟨hs, fun hx => absurd hx (by simp)⟩
  · rw [rightPaddle_hit _ w s hh]
    refine ⟨deflectBall_speedInv _ _, fun _ => ⟨?_, rfl⟩⟩
    show Real.sqrt (-|s.dx| * -|s.dx| + s.dy * s.dy) + SPEED_INCREMENT = _
    rw [neg_mul_neg, abs_mul_abs_self]
    exact congrArg (· + SPEED_INCREMENT) hs.symm

theorem PaddleOnly.refl {α : Type} (s : State α) : PaddleOnly s s :=
  ⟨s.paddle1Y, s.paddle2Y, s.aiTargetY, rfl⟩

theorem PaddleOnly.trans {α : Type} {s t u : State α} (h1 : PaddleOnly s t)
    (h2 : PaddleOnly t u) : PaddleOnly s u := by
  obtain ⟨a, b, c, rfl⟩ := h1
  obtain ⟨a2, b2, c2, rfl⟩ := h2
  exact ⟨a2, b2, c2, rfl⟩

theorem moveP1Keys_paddleOnly {α : Type} [LinearOrderedField α] (s : State α) :
    PaddleOnly s (moveP1Keys s) := by
  unfold moveP1Keys
  dsimp only
  split_ifs <;> exact ⟨_, _, _, rfl⟩

theorem moveP1Arrows_paddleOnly {α : Type} [LinearOrderedField α] (s : State α) :
    PaddleOnly s (moveP1Arrows s) := by
  unfold moveP1Arrows
  dsimp only
  split_ifs <;> exact ⟨_, _, _, rfl⟩

theorem moveP2Arrows_paddleOnly {α : Type} [LinearOrderedField α] (s : State α) :
    PaddleOnly s (moveP2Arrows s) := by
  unfold moveP2Arrows
  dsimp only
  split_ifs <;> exact ⟨_, _, _, rfl⟩

theorem moveAI_paddleOnly {α : Type} [LinearOrderedField α] (h : α) (s : State α) :
    PaddleOnly s (moveAI h s) := by
  unfold moveAI
  dsimp only
  split_ifs <;> exact ⟨_, _, _, rfl⟩

theorem movePaddlesRaw_paddleOnly {α : Type} [LinearOrderedField α] (h : α) (s : State α) :
    PaddleOnly s (movePaddlesRaw h s) := by
  have h1 := moveP1Keys_paddleOnly s
  have h2 : PaddleOnly (moveP1Keys s)
      (if (moveP1Keys s).mode = "1P" then moveAI h (moveP1Arrows (moveP1Keys s))
        else moveP1Keys s) := by
    split_ifs
    · exact (moveP1Arrows_paddleOnly _).trans (moveAI_paddleOnly h _)
    · exact PaddleOnly.refl _
  have h3 : ∀ u : State α, PaddleOnly u (if u.mode = "2P" then moveP2Arrows u else u) := by
    intro u
    split_ifs
    · exact moveP2Arrows_paddleOnly u
    · exact PaddleOnly.refl _
  exact (h1.trans h2).trans (h3 _)

/-- The function `movePaddles()` writes no field but `paddle1Y`, `paddle2Y`, `aiTargetY`. -/
theorem movePaddles_paddleOnly {α : Type} [LinearOrderedField α] (h : α) (s : State α) :
    PaddleOnly s (movePaddles h s) :=
  (movePaddlesRaw_paddleOnly h s).trans ⟨_, _, _, rfl⟩

theorem DIFFICULTY_ballSpeed_pos {α : Type} [LinearOrderedField α] (key : String)
    (p : Preset α) (hp : DIFFICULTY key = some p) : 0 < p.ballSpeed := by
  unfold DIFFICULTY at hp
  split_ifs at hp <;> cases hp <;> norm_num

theorem resetGame_speed (w h rnd : ℝ) (s0 s : State ℝ)
    (hs : resetGame ⟨Real.sqrt, Real.cos, Real.sin, Real.pi⟩ w h rnd s0 = some s) :
    0 < s.ballSpeed ∧ SpeedInv ⟨Real.sqrt, Real.cos, Real.sin, Real.pi⟩ s := by
  unfold resetGame at hs
  split at hs
  · exact absurd hs (by simp)
  · rename_i diff hd
    have hpos := DIFFICULTY_ballSpeed_pos _ diff hd
    cases hs
    exact ⟨hpos, resetBall_speedInv w h rnd 1 _ (by norm_num) (le_of_lt hpos)⟩

theorem checkGameOver_shape {α : Type} (s : State α) :
    ∃ (r : Bool) (a : JSNumber) (b : Option String) (tr : List Cue),
      (checkGameOver s).2 = { s with running := r, highScore := a, stored := b, trace := tr } := by
  unfold checkGameOver
  split_ifs
  · dsimp only
    unfold saveHighScore
    split_ifs <;> exact ⟨_, _, _, _, rfl⟩
  · exact ⟨_, _, _, _, rfl⟩

theorem checkGameOver_not (s : State ℝ) (hc : (checkGameOver s).1 = false) :
    (checkGameOver s).2 = s := by
  unfold checkGameOver at hc ⊢
  split_ifs at hc ⊢
  rfl

theorem afterPoint_speed (w h rnd d : ℝ) (s : State ℝ) (hd : d * d = 1)
    (hsp : 0 < s.ballSpeed) :
    (afterPoint ⟨Real.sqrt, Real.cos, Real.sin, Real.pi⟩ w h rnd d s).ballSpeed = s.ballSpeed ∧
    ((afterPoint ⟨Real.sqrt, Real.cos, Real.sin, Real.pi⟩ w h rnd d s).running = true →
      SpeedInv ⟨Real.sqrt, Real.cos, Real.sin, Real.pi⟩
        (afterPoint ⟨Real.sqrt, Real.cos, Real.sin, Real.pi⟩ w h rnd d s)) := by
  have hr := (afterPoint_frame ⟨Real.sqrt, Real.cos, Real.sin, Real.pi⟩ w h rnd d s).2.2
  rcases hc : (checkGameOver
    ({ s with trace := s.trace ++ [Cue.score], currentSpeed := s.ballSpeed } : State ℝ)).1 with _ | _
  · have he := checkGameOver_not _ hc
    have ha : afterPoint ⟨Real.sqrt, Real.cos, Real.sin, Real.pi⟩ w h rnd d s =
        resetBall ⟨Real.sqrt, Real.cos, Real.sin, Real.pi⟩ w h rnd d
          { s with trace := s.trace ++ [Cue.score], currentSpeed := s.ballSpeed } := by
      unfold afterPoint
      simp only [hc, he, Bool.false_eq_true, if_false]
    rw [ha]
    exact ⟨rfl, fun _ => resetBall_speedInv w h rnd d _ hd (le_of_lt hsp)⟩
  · have hge := (checkGameOver_fst _).mp hc
    have ha : afterPoint ⟨Real.sqrt, Real.cos, Real.sin, Real.pi⟩ w h rnd d s =
        (checkGameOver
          ({ s with trace := s.trace ++ [Cue.score], currentSpeed := s.ballSpeed } : State ℝ)).2 := by
      unfold afterPoint
      simp only [hc, if_true]
    constructor
    · rw [ha]
      obtain ⟨r, a, b, tr, he⟩ := checkGameOver_shape
        ({ s with trace := s.trace ++ [Cue.score], currentSpeed := s.ballSpeed } : State ℝ)
      rw [he]
    · intro hrun
      rw [hr] at hrun
      have hge2 : s.p1Score ≥ WIN_SCORE ∨ s.p2Score ≥ WIN_SCORE := hge
      simp [hge2] at hrun

theorem prePoint_speed (w h : ℝ) (s : State ℝ)
    (hs : SpeedInv ⟨Real.sqrt, Real.cos, Real.sin, Real.pi⟩ s) :
    SpeedInv ⟨Real.sqrt, Real.cos, Real.sin, Real.pi⟩
      (rightPaddle ⟨Real.sqrt, Real.cos, Real.sin, Real.pi⟩ w
        (leftPaddle ⟨Real.sqrt, Real.cos, Real.sin, Real.pi⟩ (wallBounce h (integrate s)))) :=
  (rightPaddle_speed w _
    (leftPaddle_speed _ (wallBounce_speedInv _ h _ (integrate_speedInv _ s hs)).1).1).1

theorem prePoint_ballSpeed {α : Type} [LinearOrderedField α] (M : JSMath α) (w h : α)
    (s : State α) :
    (rightPaddle M w (leftPaddle M (wallBounce h (integrate s)))).ballSpeed = s.ballSpeed := by
  have h1 : ∀ u : State α, (wallBounce h u).ballSpeed = u.ballSpeed := by
    intro u
    unfold wallBounce
    split_ifs <;> rfl
  have h2 : ∀ u : State α, (leftPaddle M u).ballSpeed = u.ballSpeed := by
    intro u
    rcases hh : leftHit u with _ | _
    · rw [leftPaddle_nohit M u hh]
    · rw [leftPaddle_hit M u hh]
      rfl
  have h3 : ∀ u : State α, (rightPaddle M w u).ballSpeed = u.ballSpeed := by
    intro u
    rcases hh : rightHit w u with _ | _
    · rw [rightPaddle_nohit M w u hh]
    · rw [rightPaddle_hit M w u hh]
      rfl
  rw [h3, h2, h1]
  rfl

theorem moveBall_speed (w h rnd : ℝ) (s : State ℝ) (hsp : 0 < s.ballSpeed)
    (hs : SpeedInv ⟨Real.sqrt, Real.cos, Real.sin, Real.pi⟩ s) :
    0 < (moveBall ⟨Real.sqrt, Real.cos, Real.sin, Real.pi⟩ w h rnd s).ballSpeed ∧
    ((moveBall ⟨Real.sqrt, Real.cos, Real.sin, Real.pi⟩ w h rnd s).running = true →
      SpeedInv ⟨Real.sqrt, Real.cos, Real.sin, Real.pi⟩
        (moveBall ⟨Real.sqrt, Real.cos, Real.sin, Real.pi⟩ w h rnd s)) := by
  have hb := prePoint_ballSpeed ⟨Real.sqrt, Real.cos, Real.sin, Real.pi⟩ w h s
  have hi := prePoint_speed w h s hs
  unfold moveBall scoring
  split_ifs
  · obtain ⟨a1, a2⟩ := afterPoint_speed w h rnd 1
      { rightPaddle ⟨Real.sqrt, Real.cos, Real.sin, Real.pi⟩ w
          (leftPaddle ⟨Real.sqrt, Real.cos, Real.sin, Real.pi⟩ (wallBounce h (integrate s))) with
        p2Score := (rightPaddle ⟨Real.sqrt, Real.cos, Real.sin, Real.pi⟩ w
          (leftPaddle ⟨Real.sqrt, Real.cos, Real.sin, Real.pi⟩
            (wallBounce h (integrate s)))).p2Score + 1 }
      (by norm_num) (by rw [← hb] at hsp; exact hsp)
    refine ⟨?_, a2⟩
    rw [a1]
    show 0 < (rightPaddle _ w (leftPaddle _ (wallBounce h (integrate s)))).ballSpeed
    rw [hb]
    exact hsp
  · obtain ⟨a1, a2⟩ := afterPoint_speed w h rnd (-1)
      { rightPaddle ⟨Real.sqrt, Real.cos, Real.sin, Real.pi⟩ w
          (leftPaddle ⟨Real.sqrt, Real.cos, Real.sin, Real.pi⟩ (wallBounce h (integrate s))) with
        p1Score := (rightPaddle ⟨Real.sqrt, Real.cos, Real.sin, Real.pi⟩ w
          (leftPaddle ⟨Real.sqrt, Real.cos, Real.sin, Real.pi⟩
            (wallBounce h (integrate s)))).p1Score + 1 }
      (by norm_num) (by rw [← hb] at hsp; exact hsp)
    refine ⟨?_, a2⟩
    rw [a1]
    show 0 < (rightPaddle _ w (leftPaddle _ (wallBounce h (integrate s)))).ballSpeed
    rw [hb]
    exact hsp
  · refine ⟨?_, fun _ => hi⟩
    rw [hb]
    exact hsp

/-- In every state of a running match `currentSpeed` is the magnitude of the velocity. -/
theorem reachable_speed (s : State ℝ)
    (hr : Reachable ⟨Real.sqrt, Real.cos, Real.sin, Real.pi⟩ s) :
    0 < s.ballSpeed ∧
    (s.running = true → SpeedInv ⟨Real.sqrt, Real.cos, Real.sin, Real.pi⟩ s) := by
  induction hr with
  | reset w h rnd s0 s hs =>
    obtain ⟨h1, h2⟩ := resetGame_speed w h rnd s0 s hs
    exact ⟨h1, fun _ => h2⟩
  | start w h rnd mode difficulty s0 s hs =>
    unfold startGame at hs
    rcases hg : resetGame ⟨Real.sqrt, Real.cos, Real.sin, Real.pi⟩ w h rnd
      { s0 with mode := mode, difficulty := difficulty } with _ | s1
    · rw [hg] at hs
      exact absurd hs (by simp)
    · rw [hg] at hs
      cases hs
      obtain ⟨h1, h2⟩ := resetGame_speed w h rnd _ s1 hg
      exact ⟨h1, fun _ => h2⟩
  | ball w h rnd s _ hrun ih =>
    exact moveBall_speed w h rnd s ih.1 (ih.2 hrun)
  | paddles h s _ ih =>
    obtain ⟨a, b, c, he⟩ := movePaddles_paddleOnly h s
    rw [he]
    exact ⟨ih.1, fun hx => ih.2 hx⟩

/-- C6: over the reals, in every state of a running match (reached from `resetGame`
by `moveBall` ticks, each serve made by `resetBall`), `currentSpeed` is the velocity
magnitude, the integration and wall-bounce steps of a tick leave it unchanged, and a
paddle hit resolved by `moveBall` (left, then right) leaves `currentSpeed` equal to its
value just before the hit plus exactly `SPEED_INCREMENT = 3/10`, strictly larger, and
`rallyCount` one larger; if exactly one paddle is hit and no point is scored, that is
the effect of the whole tick. -/
theorem speed_monotone (s : State ℝ)
    (hr : Reachable ⟨Real.sqrt, Real.cos, Real.sin, Real.pi⟩ s) (hrun : s.running = true)
    (w h rnd : ℝ) :
    s.currentSpeed = Real.sqrt (s.dx * s.dx + s.dy * s.dy) ∧
    ((wallBounce h (integrate s)).currentSpeed = s.currentSpeed ∧
      (wallBounce h (integrate s)).rallyCount = s.rallyCount) ∧
    (leftHit (wallBounce h (integrate s)) = true →
      (leftPaddle ⟨Real.sqrt, Real.cos, Real.sin, Real.pi⟩
          (wallBounce h (integrate s))).currentSpeed = s.currentSpeed + 3 / 10 ∧
      s.currentSpeed < (leftPaddle ⟨Real.sqrt, Real.cos, Real.sin, Real.pi⟩
          (wallBounce h (integrate s))).currentSpeed ∧
      (leftPaddle ⟨Real.sqrt, Real.cos, Real.sin, Real.pi⟩
          (wallBounce h (integrate s))).rallyCount = s.rallyCount + 1) ∧
    (rightHit w (leftPaddle ⟨Real.sqrt, Real.cos, Real.sin, Real.pi⟩
        (wallBounce h (integrate s))) = true →
      (rightPaddle ⟨Real.sqrt, Real.cos, Real.sin, Real.pi⟩ w
          (leftPaddle ⟨Real.sqrt, Real.cos, Real.sin, Real.pi⟩
            (wallBounce h (integrate s)))).currentSpeed =
        (leftPaddle ⟨Real.sqrt, Real.cos, Real.sin, Real.pi⟩
          (wallBounce h (integrate s))).currentSpeed + 3 / 10 ∧
      (leftPaddle ⟨Real.sqrt, Real.cos, Real.sin, Real.pi⟩
          (wallBounce h (integrate s))).currentSpeed <
        (rightPaddle ⟨Real.sqrt, Real.cos, Real.sin, Real.pi⟩ w
          (leftPaddle ⟨Real.sqrt, Real.cos, Real.sin, Real.pi⟩
            (wallBounce h (integrate s)))).currentSpeed ∧
      (rightPaddle ⟨Real.sqrt, Real.cos, Real.sin, Real.pi⟩ w
          (leftPaddle ⟨Real.sqrt, Real.cos, Real.sin, Real.pi⟩
            (wallBounce h (integrate s)))).rallyCount =
        (leftPaddle ⟨Real.sqrt, Real.cos, Real.sin, Real.pi⟩
          (wallBounce h (integrate s))).rallyCount + 1) ∧
    ((leftHit (wallBounce h (integrate s)) ≠
        rightHit w (leftPaddle ⟨Real.sqrt, Real.cos, Real.sin, Real.pi⟩
          (wallBounce h (integrate s)))) →
      pointScored w (rightPaddle ⟨Real.sqrt, Real.cos, Real.sin, Real.pi⟩ w
        (leftPaddle ⟨Real.sqrt, Real.cos, Real.sin, Real.pi⟩
          (wallBounce h (integrate s)))) = false →
      (moveBall ⟨Real.sqrt, Real.cos, Real.sin, Real.pi⟩ w h rnd s).currentSpeed
        = s.currentSpeed + 3 / 10 ∧
      s.currentSpeed < (moveBall ⟨Real.sqrt, Real.cos, Real.sin, Real.pi⟩ w h rnd s).currentSpeed ∧
      (moveBall ⟨Real.sqrt, Real.cos, Real.sin, Real.pi⟩ w h rnd s).rallyCount
        = s.rallyCount + 1) := by
  have hinv := (reachable_speed s hr).2 hrun
  obtain ⟨w1, w2, w3⟩ := wallBounce_speedInv ⟨Real.sqrt, Real.cos, Real.sin, Real.pi⟩ h
    (integrate s) (integrate_speedInv _ s hinv)
  have w2s : (wallBounce h (integrate s)).currentSpeed = s.currentSpeed := w2
  have w3s : (wallBounce h (integrate s)).rallyCount = s.rallyCount := w3
  obtain ⟨l1, l2⟩ := leftPaddle_speed (wallBounce h (integrate s)) w1
  obtain ⟨r1, r2⟩ := rightPaddle_speed w _ l1
  have hinc : (SPEED_INCREMENT : ℝ) = 3 / 10 := rfl
  have hL : leftHit (wallBounce h (integrate s)) = true →
      (leftPaddle ⟨Real.sqrt, Real.cos, Real.sin, Real.pi⟩
          (wallBounce h (integrate s))).currentSpeed = s.currentSpeed + 3 / 10 ∧
      (leftPaddle ⟨Real.sqrt, Real.cos, Real.sin, Real.pi⟩
          (wallBounce h (integrate s))).rallyCount = s.rallyCount + 1 := by
    intro hh
    obtain ⟨a, b⟩ := l2 hh
    rw [w2s, hinc] at a
    rw [w3s] at b
    exact ⟨a, b⟩
  refine ⟨hinv, ⟨w2s, w3s⟩, ?_, ?_, ?_⟩
  · intro hh
    obtain ⟨a, b⟩ := hL hh
    exact ⟨a, by rw [a]; linarith, b⟩
  · intro hh
    obtain ⟨a, b⟩ := r2 hh
    rw [hinc] at a
    exact ⟨a, by rw [a]; linarith, b⟩
  · intro hne hp
    unfold moveBall
    rw [scoring_nopoint _ w h rnd _ hp]
    rcases hl : leftHit (wallBounce h (integrate s)) with _ | _
    · rw [hl] at hne
      have hrt : rightHit w (leftPaddle ⟨Real.sqrt, Real.cos, Real.sin, Real.pi⟩
          (wallBounce h (integrate s))) = true := by
        rcases hx : rightHit w (leftPaddle ⟨Real.sqrt, Real.cos, Real.sin, Real.pi⟩
          (wallBounce h (integrate s))) with _ | _
        · exact absurd hx.symm hne
        · rfl
      obtain ⟨a, b⟩ := r2 hrt
      rw [leftPaddle_nohit _ _ hl] at a b ⊢
      rw [hinc, w2s] at a
      rw [w3s] at b
      exact ⟨a, by rw [a]; linarith, b⟩
    · rw [hl] at hne
      have hrf : rightHit w (leftPaddle ⟨Real.sqrt, Real.cos, Real.sin, Real.pi⟩
          (wallBounce h (integrate s))) = false := by
        rcases hx : rightHit w (leftPaddle ⟨Real.sqrt, Real.cos, Real.sin, Real.pi⟩
          (wallBounce h (integrate s))) with _ | _
        · rfl
        · exact absurd hx.symm hne
      rw [rightPaddle_nohit _ w _ hrf]
      obtain ⟨a, b⟩ := hL hl
      exact ⟨a, by rw [a]; linarith, b⟩

theorem sqrt_hundred : Real.sqrt 100 = 10 := by
  rw [show (100 : ℝ) = 10 ^ 2 by norm_num]
  exact Real.sqrt_sq (by norm_num)

theorem narrowKickoff_started :
    startGame ⟨Real.sqrt, Real.cos, Real.sin, Real.pi⟩ 60 400 (1 / 2) "1P" "medium"
      (initialState : State ℝ) = some (narrowKickoff : State ℝ) := by
  simp [startGame, resetGame, DIFFICULTY, resetBall, resetPaddles, initialState, kickoff,
    narrowKickoff, BALL_SIZE, PADDLE_HEIGHT]
  norm_num

theorem narrowKickoff_rightHit :
    rightHit 60 (leftPaddle ⟨Real.sqrt, Real.cos, Real.sin, Real.pi⟩
      (wallBounce 400 (integrate (narrowKickoff : State ℝ)))) = true := by
  norm_num [rightHit, leftPaddle, wallBounce, integrate, narrowKickoff, kickoff, initialState,
    checkPaddleCollision, BALL_SIZE, PADDLE_HEIGHT, PADDLE_WIDTH, PADDLE_MARGIN]

theorem narrowKickoff_tick :
    moveBall ⟨Real.sqrt, Real.cos, Real.sin, Real.pi⟩ 60 400 (1 / 2)
      (narrowKickoff : State ℝ) = narrowReturn := by
  norm_num [moveBall, scoring, rightPaddle, deflectBall, onPaddleHit, deflectAngle,
    deflectOffset, deflectNewSpeed, SPEED_INCREMENT, leftPaddle, wallBounce, integrate,
    narrowKickoff, narrowReturn, kickoff, initialState, checkPaddleCollision, BALL_SIZE,
    PADDLE_HEIGHT, PADDLE_WIDTH, PADDLE_MARGIN, sqrt_hundred]

theorem narrowReturn_leftHit :
    leftHit (wallBounce 400 (integrate (narrowReturn : State ℝ))) = true := by
  norm_num [leftHit, wallBounce, integrate, narrowReturn, kickoff, initialState,
    checkPaddleCollision, BALL_SIZE, PADDLE_HEIGHT, PADDLE_WIDTH, PADDLE_MARGIN]

theorem speed_monotone_witness :
    (Reachable ⟨Real.sqrt, Real.cos, Real.sin, Real.pi⟩ (narrowKickoff : State ℝ) ∧
      (narrowKickoff : State ℝ).running = true ∧
      rightHit 60 (leftPaddle ⟨Real.sqrt, Real.cos, Real.sin, Real.pi⟩
        (wallBounce 400 (integrate (narrowKickoff : State ℝ)))) = true ∧
      (rightPaddle ⟨Real.sqrt, Real.cos, Real.sin, Real.pi⟩ 60
          (leftPaddle ⟨Real.sqrt, Real.cos, Real.sin, Real.pi⟩
            (wallBounce 400 (integrate (narrowKickoff : State ℝ))))).currentSpeed =
        (leftPaddle ⟨Real.sqrt, Real.cos, Real.sin, Real.pi⟩
          (wallBounce 400 (integrate (narrowKickoff : State ℝ)))).currentSpeed + 3 / 10) ∧
    (Reachable ⟨Real.sqrt, Real.cos, Real.sin, Real.pi⟩ (narrowReturn : State ℝ) ∧
      (narrowReturn : State ℝ).running = true ∧
      leftHit (wallBounce 400 (integrate (narrowReturn : State ℝ))) = true ∧
      (leftPaddle ⟨Real.sqrt, Real.cos, Real.sin, Real.pi⟩
          (wallBounce 400 (integrate (narrowReturn : State ℝ)))).currentSpeed =
        (narrowReturn : State ℝ).currentSpeed + 3 / 10) :=
  have hk : Reachable ⟨Real.sqrt, Real.cos, Real.sin, Real.pi⟩ (narrowKickoff : State ℝ) :=
    Reachable.start 60 400 (1 / 2) "1P" "medium" initialState narrowKickoff narrowKickoff_started
  have hn : Reachable ⟨Real.sqrt, Real.cos, Real.sin, Real.pi⟩ (narrowReturn : State ℝ) :=
    narrowKickoff_tick ▸ Reachable.ball 60 400 (1 / 2) narrowKickoff hk rfl
  ⟨⟨hk, rfl, narrowKickoff_rightHit,
      ((speed_monotone narrowKickoff hk rfl 60 400 (1 / 2)).2.2.2.1 narrowKickoff_rightHit).1⟩,
    ⟨hn, rfl, narrowReturn_leftHit,
      ((speed_monotone narrowReturn hn rfl 60 400 (1 / 2)).2.2.1 narrowReturn_leftHit).1⟩⟩

end Rally

/-! ## Wall bounce -/

section Walls

variable {α : Type} [LinearOrderedField α]

/-- C7 (as stated, refuted): a level serve (`Math.random() = 1/2`, so `dy = 0`) on a
table of height 10 starts at `ballY = -3`; after integration `y = -3 < 0`, and the
wall-bounce step sets `ballY = 0` but leaves `dy = 0`, not `dy > 0`.  In the same way
a level ball at `y = 500` on a table resized to height 400 is put at
`y = 384 = h - BALL_SIZE` with `dy = 0`, not `dy < 0`. -/
theorem wallBounce_level_ball :
    ((resetBall ⟨Real.sqrt, Real.cos, Real.sin, Real.pi⟩ 800 10 (1 / 2) 1 (kickoff : State ℝ)).ballY +
        (resetBall ⟨Real.sqrt, Real.cos, Real.sin, Real.pi⟩ 800 10 (1 / 2) 1 (kickoff : State ℝ)).dy < 0 ∧
      (wallBounce 10 (integrate (resetBall ⟨Real.sqrt, Real.cos, Real.sin, Real.pi⟩ 800 10 (1 / 2) 1
        (kickoff : State ℝ)))).ballY = 0 ∧
      ¬ 0 < (wallBounce 10 (integrate (resetBall ⟨Real.sqrt, Real.cos, Real.sin, Real.pi⟩ 800 10 (1 / 2) 1
        (kickoff : State ℝ)))).dy) ∧
    ((levelLow : State ℝ).ballY + (levelLow : State ℝ).dy > 400 - BALL_SIZE ∧
      (levelLow : State ℝ).ballY + (levelLow : State ℝ).dy > 0 ∧
      (wallBounce 400 (integrate (levelLow : State ℝ))).ballY = 400 - BALL_SIZE ∧
      ¬ (wallBounce 400 (integrate (levelLow : State ℝ))).dy < 0) := by
  refine ⟨⟨?_, ?_, ?_⟩, ⟨?_, ?_, ?_, ?_⟩⟩ <;>
    norm_num [resetBall, wallBounce, integrate, levelLow, kickoff, initialState,
      BALL_SIZE]

/-- C7 (amended): for every ball state with `dy` non-zero and every table height `h`,
if `ballY + dy < 0` then after the wall-bounce step `ballY = 0` and `dy > 0`; if
`ballY + dy > h - BALL_SIZE` and `ballY + dy > 0` then after it `ballY = h - BALL_SIZE`
and `dy < 0`. -/
theorem wallBounce_resolution (s : State α) (h : α) (hdy : s.dy ≠ 0) :
    (s.ballY + s.dy < 0 →
      (wallBounce h (integrate s)).ballY = 0 ∧ 0 < (wallBounce h (integrate s)).dy) ∧
    (s.ballY + s.dy > h - BALL_SIZE → s.ballY + s.dy > 0 →
      (wallBounce h (integrate s)).ballY = h - BALL_SIZE ∧
      (wallBounce h (integrate s)).dy < 0) := by
  have habs : 0 < |s.dy| := abs_pos.mpr hdy
  constructor
  · intro hneg
    have hle : (integrate s).ballY ≤ 0 := le_of_lt hneg
    unfold wallBounce
    rw [if_pos hle]
    exact ⟨rfl, habs⟩
  · intro hbig hpos
    have h1 : ¬ (integrate s).ballY ≤ 0 := not_le.mpr hpos
    have h2 : (integrate s).ballY ≥ h - BALL_SIZE := le_of_lt hbig
    unfold wallBounce
    rw [if_neg h1, if_pos h2]
    exact ⟨rfl, neg_neg_of_pos habs⟩

theorem wallBounce_resolution_witness :
    ((rising : State ℚ).dy ≠ 0 ∧ (rising : State ℚ).ballY + (rising : State ℚ).dy < 0 ∧
      (wallBounce 400 (integrate (rising : State ℚ))).ballY = 0 ∧
      0 < (wallBounce 400 (integrate (rising : State ℚ))).dy) ∧
    ((falling : State ℚ).dy ≠ 0 ∧
      (falling : State ℚ).ballY + (falling : State ℚ).dy > 400 - BALL_SIZE ∧
      (falling : State ℚ).ballY + (falling : State ℚ).dy > 0 ∧
      (wallBounce 400 (integrate (falling : State ℚ))).ballY = 400 - BALL_SIZE ∧
      (wallBounce 400 (integrate (falling : State ℚ))).dy < 0) :=
  have r1 : (rising : State ℚ).dy ≠ 0 := by norm_num [rising]
  have r2 : (rising : State ℚ).ballY + (rising : State ℚ).dy < 0 := by norm_num [rising]
  have f1 : (falling : State ℚ).dy ≠ 0 := by norm_num [falling]
  have f2 : (falling : State ℚ).ballY + (falling : State ℚ).dy > 400 - BALL_SIZE := by
    norm_num [falling, BALL_SIZE]
  have f3 : (falling : State ℚ).ballY + (falling : State ℚ).dy > 0 := by norm_num [falling]
  ⟨⟨r1, r2, (wallBounce_resolution rising 400 r1).1 r2⟩,
    ⟨f1, f2, f3, (wallBounce_resolution falling 400 f1).2 f2 f3⟩⟩

end Walls

/-! ## High score -/

section HighScore

variable {α : Type}

theorem saveHighScore_nan (score : JSNumber) (s : State α)
    (hs : s.highScore = JSNumber.nan) : saveHighScore score s = s := by
  unfold saveHighScore
  rw [hs]
  cases score <;> rfl

/-- With a numeric high score `a`, `saveHighScore(b)` leaves `highScore = max(a, b)`, so
it never decreases; it writes the stored item (to `String(b)`) when `b > a` and
otherwise changes nothing at all; when `checkGameOver` ends a match the new
`highScore` is `max(a, max(p1Score, p2Score))`, and when it does not end the match the
state is untouched. -/
theorem highScore_monotone (s : State α) (a b : Int) (ha : s.highScore = JSNumber.int a) :
    (saveHighScore (JSNumber.int b) s).highScore = JSNumber.int (max a b) ∧
    (b > a → (saveHighScore (JSNumber.int b) s).stored = some (toString b)) ∧
    (¬ b > a → saveHighScore (JSNumber.int b) s = s) ∧
    ((saveHighScore (JSNumber.int b) s).stored ≠ s.stored → b > a) ∧
    ((checkGameOver s).1 = true →
      (checkGameOver s).2.highScore = JSNumber.int (max a (max s.p1Score s.p2Score)) ∧
      (checkGameOver s).2.stored =
        (saveHighScore (JSNumber.int (max s.p1Score s.p2Score)) s).stored) ∧
    ((checkGameOver s).1 = false → (checkGameOver s).2 = s) := by
  have hgt : ∀ n : Int, JSNumber.gt (JSNumber.int n) s.highScore = decide (n > a) := by
    intro n
    rw [ha]
    rfl
  have key : ∀ n : Int, (saveHighScore (JSNumber.int n) s).highScore = JSNumber.int (max a n) := by
    intro n
    unfold saveHighScore
    rw [hgt]
    by_cases hc : n > a
    · rw [if_pos (decide_eq_true hc), max_eq_right (le_of_lt hc)]
    · rw [if_neg (by simpa using hc), max_eq_left (not_lt.mp hc)]
      exact ha
  have hno : ∀ n : Int, ¬ n > a → saveHighScore (JSNumber.int n) s = s := by
    intro n hc
    unfold saveHighScore
    rw [hgt, if_neg (by simpa using hc)]
  refine ⟨key b, ?_, hno b, ?_, ?_, ?_⟩
  · intro hc
    unfold saveHighScore
    rw [hgt, if_pos (decide_eq_true hc)]
    rfl
  · intro hne
    by_contra hc
    exact hne (by rw [hno b hc])
  · intro hover
    have hcond := (checkGameOver_fst s).mp hover
    have he : (checkGameOver s).2.highScore =
        (saveHighScore (JSNumber.int (max s.p1Score s.p2Score))
          { s with running := false }).highScore ∧
        (checkGameOver s).2.stored =
        (saveHighScore (JSNumber.int (max s.p1Score s.p2Score))
          { s with running := false }).stored := by
      unfold checkGameOver
      rw [if_pos hcond]
      exact ⟨rfl, rfl⟩
    have hsame : ∀ n : JSNumber,
        (saveHighScore n { s with running := false }).highScore = (saveHighScore n s).highScore ∧
        (saveHighScore n { s with running := false }).stored = (saveHighScore n s).stored := by
      intro n
      unfold saveHighScore
      split_ifs <;> exact ⟨rfl, rfl⟩
    refine ⟨?_, ?_⟩
    · rw [he.1, (hsame _).1, key]
    · rw [he.2, (hsame _).2]
  · intro hno2
    unfold checkGameOver at hno2 ⊢
    split_ifs at hno2 ⊢
    rfl

theorem highScore_monotone_witness :
    (matchPoint : State ℚ).highScore = JSNumber.int 5 ∧
    ((7 : Int) > 5 ∧ (saveHighScore (JSNumber.int 7) (matchPoint : State ℚ)).stored = some "7") ∧
    (¬ (4 : Int) > 5 ∧ saveHighScore (JSNumber.int 4) (matchPoint : State ℚ) = matchPoint) ∧
    ((checkGameOver (matchPoint : State ℚ)).1 = true ∧
      (checkGameOver (matchPoint : State ℚ)).2.highScore = JSNumber.int 7) ∧
    ((kickoff : State ℚ).highScore = JSNumber.int 0 ∧
      (checkGameOver (kickoff : State ℚ)).1 = false ∧
      (checkGameOver (kickoff : State ℚ)).2 = kickoff) :=
  have h3 : (checkGameOver (matchPoint : State ℚ)).1 = true := by
    simp [checkGameOver, matchPoint, WIN_SCORE]
  have h4 : (checkGameOver (kickoff : State ℚ)).1 = false := by
    simp [checkGameOver, kickoff, initialState, WIN_SCORE]
  ⟨rfl, ⟨by decide, (highScore_monotone matchPoint 5 7 rfl).2.1 (by decide)⟩,
    ⟨by decide, (highScore_monotone matchPoint 5 4 rfl).2.2.1 (by decide)⟩,
    ⟨h3, ((highScore_monotone matchPoint 5 0 rfl).2.2.2.2.1 h3).1⟩,
    ⟨rfl, h4, (highScore_monotone kickoff 0 0 rfl).2.2.2.2.2 h4⟩⟩

/-- C8 (the code at a failing input): the stored high-score item is the text `abc`.
`loadHighScore()` reads it as `parseInt("abc", 10) = NaN`; player 1 then wins 7-3 and
`checkGameOver` ends the match and calls `saveHighScore(7)`, but `7 > NaN` is false:
`highScore` stays `NaN` and the stored item stays `abc`, where the claim gives
`max(previous, 7)` and a write.  With a missing item the same match stores `7`. -/
theorem corrupt_high_score_never_updates :
    parseInt "abc" = JSNumber.nan ∧
    (corruptMatchPoint : State ℚ).highScore = JSNumber.nan ∧
    (corruptMatchPoint : State ℚ).stored = some "abc" ∧
    (checkGameOver (corruptMatchPoint : State ℚ)).1 = true ∧
    (checkGameOver (corruptMatchPoint : State ℚ)).2.highScore = JSNumber.nan ∧
    (checkGameOver (corruptMatchPoint : State ℚ)).2.stored = some "abc" ∧
    (checkGameOver ({ loadHighScore { (kickoff : State ℚ) with stored := none } with
        p1Score := 7, p2Score := 3 } : State ℚ)).2.highScore = JSNumber.int 7 ∧
    (checkGameOver ({ loadHighScore { (kickoff : State ℚ) with stored := none } with
        p1Score := 7, p2Score := 3 } : State ℚ)).2.stored = some "7" := by
  have hp : parseInt "abc" = JSNumber.nan := by decide
  have hl : (corruptMatchPoint : State ℚ).highScore = JSNumber.nan := by
    simp [corruptMatchPoint, loadHighScore, hp]
  refine ⟨hp, hl, rfl, ?_, ?_, ?_, ?_, ?_⟩
  · simp [checkGameOver, corruptMatchPoint, WIN_SCORE]
  · simp [checkGameOver, corruptMatchPoint, WIN_SCORE, saveHighScore, loadHighScore, hp,
      JSNumber.gt]
  · simp [checkGameOver, corruptMatchPoint, WIN_SCORE, saveHighScore, loadHighScore, hp,
      JSNumber.gt]
  · simp [checkGameOver, WIN_SCORE, saveHighScore, loadHighScore, JSNumber.gt]
  · simp [checkGameOver, WIN_SCORE, saveHighScore, loadHighScore, JSNumber.gt,
      JSNumber.toJSString]
    decide

end HighScore

/-! ## Free flight -/

section FreeFlight

variable {α : Type} [LinearOrderedField α]

/-- C9: if the integrated position `(ballX + dx, ballY + dy)` has
`0 < ballY + dy < h - BALL_SIZE`, overlaps neither paddle box and has
`-BALL_SIZE < ballX + dx < w`, then one `moveBall` tick sets the position to it and
leaves every other field of the state unchanged (velocity, speeds, rally count,
scores, paddles, `running`, high score, and the cue trace: no wall-bounce, paddle-hit
or score event); in particular a ball at `(w/2, h/2)` with velocity `(5, 0)` moves to
`(w/2 + 5, h/2)`. -/
theorem free_flight (M : JSMath α) (w h rnd : α) (s : State α)
    (hy0 : 0 < s.ballY + s.dy) (hy1 : s.ballY + s.dy < h - BALL_SIZE)
    (hp1 : checkPaddleCollision (integrate s) PADDLE_MARGIN s.paddle1Y = false)
    (hp2 : checkPaddleCollision (integrate s) (w - PADDLE_MARGIN - PADDLE_WIDTH) s.paddle2Y
      = false)
    (hx0 : -BALL_SIZE < s.ballX + s.dx) (hx1 : s.ballX + s.dx < w) :
    moveBall M w h rnd s = { s with ballX := s.ballX + s.dx, ballY := s.ballY + s.dy } ∧
    (moveBall M w h rnd s).trace = s.trace ∧
    (s.ballX = w / 2 → s.ballY = h / 2 → s.dx = 5 → s.dy = 0 →
      (moveBall M w h rnd s).ballX = w / 2 + 5 ∧ (moveBall M w h rnd s).ballY = h / 2) := by
  have hwall : wallBounce h (integrate s) = integrate s := by
    have g1 : ¬ (integrate s).ballY ≤ 0 := not_le.mpr hy0
    have g2 : ¬ (integrate s).ballY ≥ h - BALL_SIZE := not_le.mpr hy1
    unfold wallBounce
    rw [if_neg g1, if_neg g2]
  have hl : leftHit (integrate s) = false := by
    unfold leftHit
    rw [show (integrate s).paddle1Y = s.paddle1Y from rfl, hp1]
    rfl
  have hr : rightHit w (integrate s) = false := by
    unfold rightHit
    rw [show (integrate s).paddle2Y = s.paddle2Y from rfl, hp2]
    rfl
  have hp : pointScored w (integrate s) = false := by
    have g1 : ¬ (integrate s).ballX ≤ -BALL_SIZE := not_le.mpr hx0
    have g2 : ¬ (integrate s).ballX ≥ w := not_le.mpr hx1
    unfold pointScored
    rw [Bool.or_eq_false_iff, decide_eq_false_iff_not, decide_eq_false_iff_not]
    exact ⟨g1, g2⟩
  have hmove : moveBall M w h rnd s = integrate s := by
    unfold moveBall
    rw [hwall, leftPaddle_nohit M _ hl, rightPaddle_nohit M w _ hr, scoring_nopoint M w h rnd _ hp]
  refine ⟨hmove, by rw [hmove]; rfl, ?_⟩
  intro e1 e2 e3 e4
  rw [hmove]
  constructor
  · show s.ballX + s.dx = _
    rw [e1, e3]
  · show s.ballY + s.dy = _
    rw [e2, e4, add_zero]

theorem free_flight_witness :
    (0 < (centred : State ℝ).ballY + (centred : State ℝ).dy ∧
      (centred : State ℝ).ballY + (centred : State ℝ).dy < 400 - BALL_SIZE ∧
      checkPaddleCollision (integrate (centred : State ℝ)) PADDLE_MARGIN
        (centred : State ℝ).paddle1Y = false ∧
      checkPaddleCollision (integrate (centred : State ℝ)) (800 - PADDLE_MARGIN - PADDLE_WIDTH)
        (centred : State ℝ).paddle2Y = false ∧
      -BALL_SIZE < (centred : State ℝ).ballX + (centred : State ℝ).dx ∧
      (centred : State ℝ).ballX + (centred : State ℝ).dx < 800) ∧
    ((centred : State ℝ).ballX = 800 / 2 ∧ (centred : State ℝ).ballY = 400 / 2 ∧
      (centred : State ℝ).dx = 5 ∧ (centred : State ℝ).dy = 0) ∧
    ((moveBall ⟨Real.sqrt, Real.cos, Real.sin, Real.pi⟩ 800 400 (1 / 2)
        (centred : State ℝ)).ballX = 800 / 2 + 5 ∧
      (moveBall ⟨Real.sqrt, Real.cos, Real.sin, Real.pi⟩ 800 400 (1 / 2)
        (centred : State ℝ)).ballY = 400 / 2) :=
  have hy0 : 0 < (centred : State ℝ).ballY + (centred : State ℝ).dy := by norm_num [centred]
  have hy1 : (centred : State ℝ).ballY + (centred : State ℝ).dy < 400 - BALL_SIZE := by
    norm_num [centred, BALL_SIZE]
  have hp1 : checkPaddleCollision (integrate (centred : State ℝ)) PADDLE_MARGIN
      (centred : State ℝ).paddle1Y = false := by
    norm_num [checkPaddleCollision, integrate, centred, kickoff, PADDLE_MARGIN, PADDLE_WIDTH,
      PADDLE_HEIGHT, BALL_SIZE]
  have hp2 : checkPaddleCollision (integrate (centred : State ℝ))
      (800 - PADDLE_MARGIN - PADDLE_WIDTH) (centred : State ℝ).paddle2Y = false := by
    norm_num [checkPaddleCollision, integrate, centred, kickoff, PADDLE_MARGIN, PADDLE_WIDTH,
      PADDLE_HEIGHT, BALL_SIZE]
  have hx0 : -BALL_SIZE < (centred : State ℝ).ballX + (centred : State ℝ).dx := by
    norm_num [centred, BALL_SIZE]
  have hx1 : (centred : State ℝ).ballX + (centred : State ℝ).dx < 800 := by norm_num [centred]
  have e1 : (centred : State ℝ).ballX = 800 / 2 := by norm_num [centred]
  have e2 : (centred : State ℝ).ballY = 400 / 2 := by norm_num [centred]
  ⟨⟨hy0, hy1, hp1, hp2, hx0, hx1⟩, ⟨e1, e2, rfl, rfl⟩,
    (free_flight ⟨Real.sqrt, Real.cos, Real.sin, Real.pi⟩ 800 400 (1 / 2) centred
      hy0 hy1 hp1 hp2 hx0 hx1).2.2 e1 e2 rfl rfl⟩

end FreeFlight

/-! ## AI tracking -/

section Tracking

variable {α : Type} [LinearOrderedField α]

theorem sign_mul_min (d a : α) (ha : 0 ≤ a) :
    (0 < d → sign d * min |d| a = min |d| a ∧ |d| = d) ∧
    (d < 0 → sign d * min |d| a = -min |d| a ∧ |d| = -d) ∧
    (d = 0 → sign d * min |d| a = 0 ∧ |d| = 0) ∧ 0 ≤ min |d| a := by
  refine ⟨?_, ?_, ?_, le_min (abs_nonneg d) ha⟩
  · intro hd
    unfold sign
    rw [if_pos hd, one_mul]
    exact ⟨rfl, abs_of_pos hd⟩
  · intro hd
    unfold sign
    rw [if_neg (not_lt.mpr hd.le), if_pos hd, neg_one_mul]
    exact ⟨rfl, abs_of_neg hd⟩
  · intro hd
    subst hd
    unfold sign
    rw [if_neg (lt_irrefl _), if_neg (lt_irrefl _), zero_mul]
    exact ⟨rfl, abs_zero⟩

/-- The tracking step `d * r + sign d * min |d| a` from `p` toward `t = p + d`: it never
moves away from the target, and it stays between `p` and `t` exactly when
`min |d| a <= (1 - r) * |d|`. -/
theorem track_core (p t a r : α) (ha : 0 ≤ a) (hr : 0 ≤ r) :
    (0 ≤ t - p → p ≤ p + ((t - p) * r + sign (t - p) * min |t - p| a)) ∧
    (t - p ≤ 0 → p + ((t - p) * r + sign (t - p) * min |t - p| a) ≤ p) ∧
    ((min p t ≤ p + ((t - p) * r + sign (t - p) * min |t - p| a) ∧
        p + ((t - p) * r + sign (t - p) * min |t - p| a) ≤ max p t) ↔
      min |t - p| a ≤ (1 - r) * |t - p|) := by
  obtain ⟨spos, sneg, szero, hmin⟩ := sign_mul_min (t - p) a ha
  rcases lt_trichotomy (t - p) 0 with hd | hd | hd
  · obtain ⟨e1, e2⟩ := sneg hd
    have hdr : (t - p) * r ≤ 0 := mul_nonpos_of_nonpos_of_nonneg hd.le hr
    have htp : t ≤ p := by linarith
    rw [e1, min_eq_right htp, max_eq_left htp]
    rw [e2] at hmin ⊢
    refine ⟨fun hx => by linarith, fun _ => by linarith, ?_⟩
    constructor
    · intro hx
      nlinarith [hx.1]
    · intro hx
      constructor <;> nlinarith
  · obtain ⟨e1, e2⟩ := szero hd
    have htp : t = p := by linarith
    rw [e1, e2, hd]
    subst htp
    simp [ha]
  · obtain ⟨e1, e2⟩ := spos hd
    have hdr : 0 ≤ (t - p) * r := mul_nonneg hd.le hr
    have htp : p ≤ t := by linarith
    rw [e1, min_eq_left htp, max_eq_right htp]
    rw [e2] at hmin ⊢
    refine ⟨fun _ => by linarith, fun hx => by linarith, ?_⟩
    constructor
    · intro hx
      nlinarith [hx.2]
    · intro hx
      constructor <;> nlinarith

/-- For `0 < r <= 1` and `0 < a` the no-overshoot condition holds only at the target or
far from it. -/
theorem track_threshold (x a r : α) (hx : 0 ≤ x) (ha : 0 < a) (hr0 : 0 < r) (hr1 : r ≤ 1) :
    min x a ≤ (1 - r) * x ↔ (x = 0 ∨ (r < 1 ∧ a / (1 - r) ≤ x)) := by
  constructor
  · intro hm
    rcases le_total x a with hxa | hax
    · rw [min_eq_left hxa] at hm
      left
      have : r * x ≤ 0 := by linarith
      have h2 : 0 ≤ r * x := mul_nonneg hr0.le hx
      have h3 : r * x = 0 := le_antisymm this h2
      rcases mul_eq_zero.mp h3 with h4 | h4
      · exact absurd h4 (ne_of_gt hr0)
      · exact h4
    · rw [min_eq_right hax] at hm
      right
      have hr : r < 1 := by
        by_contra hc
        have : r = 1 := le_antisymm hr1 (not_lt.mp hc)
        rw [this] at hm
        linarith
      refine ⟨hr, ?_⟩
      rw [div_le_iff₀ (by linarith)]
      linarith
  · rintro (h0 | ⟨hr, hth⟩)
    · subst h0
      rw [mul_zero]
      exact min_le_left _ _
    · rw [div_le_iff₀ (by linarith)] at hth
      exact le_trans (min_le_right _ _) (by linarith)

/-- C10 (as stated, refuted): with the AI paddle at `y = 0` and the ball moving right,
on each preset one `moveAI` step passes the target: easy (target 4) moves to 6,
medium (target 10) moves to 16, hard (target 10) moves to 20. -/
theorem moveAI_overshoots :
    ((DIFFICULTY "easy" : Option (Preset ℚ)) = some ⟨7, 5, 1 / 2⟩ ∧
      (chasing 5 (1 / 2) 36 : State ℚ).dx > 0 ∧
      (chasing 5 (1 / 2) 36 : State ℚ).ballY + BALL_SIZE / 2 - PADDLE_HEIGHT / 2 = 4 ∧
      (moveAI 400 (chasing 5 (1 / 2) 36 : State ℚ)).paddle2Y = 6) ∧
    ((DIFFICULTY "medium" : Option (Preset ℚ)) = some ⟨10, 8, 4 / 5⟩ ∧
      (chasing 8 (4 / 5) 42 : State ℚ).dx > 0 ∧
      (chasing 8 (4 / 5) 42 : State ℚ).ballY + BALL_SIZE / 2 - PADDLE_HEIGHT / 2 = 10 ∧
      (moveAI 400 (chasing 8 (4 / 5) 42 : State ℚ)).paddle2Y = 16) ∧
    ((DIFFICULTY "hard" : Option (Preset ℚ)) = some ⟨13, 11, 1⟩ ∧
      (chasing 11 1 42 : State ℚ).dx > 0 ∧
      (chasing 11 1 42 : State ℚ).ballY + BALL_SIZE / 2 - PADDLE_HEIGHT / 2 = 10 ∧
      (moveAI 400 (chasing 11 1 42 : State ℚ)).paddle2Y = 20 ∧
      ¬ ((moveAI 400 (chasing 11 1 42 : State ℚ)).paddle2Y ≤
        max (chasing 11 1 42 : State ℚ).paddle2Y
          ((chasing 11 1 42 : State ℚ).ballY + BALL_SIZE / 2 - PADDLE_HEIGHT / 2))) := by
  refine ⟨⟨by simp [DIFFICULTY], ?_, ?_, ?_⟩, ⟨by simp [DIFFICULTY], ?_, ?_, ?_⟩,
    ⟨by simp [DIFFICULTY], ?_, ?_, ?_, ?_⟩⟩ <;>
    norm_num [chasing, kickoff, initialState, moveAI, sign, BALL_SIZE, PADDLE_HEIGHT]

theorem DIFFICULTY_ai (key : String) (p : Preset α) (hp : DIFFICULTY key = some p) :
    0 < p.aiSpeed ∧ 0 < p.aiReaction ∧ p.aiReaction ≤ 1 := by
  unfold DIFFICULTY at hp
  split_ifs at hp <;> cases hp <;> norm_num

/-- C10 (amended): for every state with `dx > 0` whose `aiSpeed` and `aiReaction` are
those of a difficulty preset, one `moveAI` step sets `aiTargetY` to
`target = ballY + BALL_SIZE/2 - PADDLE_HEIGHT/2`, moves `paddle2Y` by
`diff*aiReaction + sign(diff)*min(|diff|, aiSpeed)` with `diff = target - paddle2Y`, and
never moves it away from the target; the new `paddle2Y` lies between the old one and
the target (inclusive) if and only if `diff = 0` or `aiReaction < 1` and
`|diff| >= aiSpeed / (1 - aiReaction)`: for easy `|diff| >= 10`, for medium
`|diff| >= 40`, for hard only `diff = 0`. -/
theorem moveAI_tracking (s : State α) (h : α) (key : String) (p : Preset α)
    (hp : DIFFICULTY key = some p) (hs : s.aiSpeed = p.aiSpeed)
    (hre : s.aiReaction = p.aiReaction) (hdx : s.dx > 0) :
    (moveAI h s).aiTargetY = aiTarget s ∧
    (moveAI h s).paddle2Y = s.paddle2Y +
      (aiDiff s * s.aiReaction + sign (aiDiff s) * min |aiDiff s| s.aiSpeed) ∧
    (0 ≤ aiDiff s → s.paddle2Y ≤ (moveAI h s).paddle2Y) ∧
    (aiDiff s ≤ 0 → (moveAI h s).paddle2Y ≤ s.paddle2Y) ∧
    ((min s.paddle2Y (aiTarget s) ≤ (moveAI h s).paddle2Y ∧
        (moveAI h s).paddle2Y ≤ max s.paddle2Y (aiTarget s)) ↔
      (aiDiff s = 0 ∨ (s.aiReaction < 1 ∧ s.aiSpeed / (1 - s.aiReaction) ≤ |aiDiff s|))) ∧
    (key = "easy" →
      ((min s.paddle2Y (aiTarget s) ≤ (moveAI h s).paddle2Y ∧
          (moveAI h s).paddle2Y ≤ max s.paddle2Y (aiTarget s)) ↔
        (aiDiff s = 0 ∨ 10 ≤ |aiDiff s|))) ∧
    (key = "medium" →
      ((min s.paddle2Y (aiTarget s) ≤ (moveAI h s).paddle2Y ∧
          (moveAI h s).paddle2Y ≤ max s.paddle2Y (aiTarget s)) ↔
        (aiDiff s = 0 ∨ 40 ≤ |aiDiff s|))) ∧
    (key = "hard" →
      ((min s.paddle2Y (aiTarget s) ≤ (moveAI h s).paddle2Y ∧
          (moveAI h s).paddle2Y ≤ max s.paddle2Y (aiTarget s)) ↔
        aiDiff s = 0)) := by
  obtain ⟨pa, pr0, pr1⟩ := DIFFICULTY_ai key p hp
  rw [← hs] at pa
  rw [← hre] at pr0 pr1
  have hstep : (moveAI h s).paddle2Y = s.paddle2Y +
      (aiDiff s * s.aiReaction + sign (aiDiff s) * min |aiDiff s| s.aiSpeed) := by
    unfold moveAI
    simp only [if_pos hdx]
    rfl
  have htgt : (moveAI h s).aiTargetY = aiTarget s := by
    unfold moveAI
    simp only [if_pos hdx]
    rfl
  obtain ⟨c1, c2, c3⟩ := track_core s.paddle2Y (aiTarget s) s.aiSpeed s.aiReaction pa.le pr0.le
  have hth := track_threshold |aiDiff s| s.aiSpeed s.aiReaction (abs_nonneg _) pa pr0 pr1
  have hbetween : (min s.paddle2Y (aiTarget s) ≤ (moveAI h s).paddle2Y ∧
        (moveAI h s).paddle2Y ≤ max s.paddle2Y (aiTarget s)) ↔
      (aiDiff s = 0 ∨ (s.aiReaction < 1 ∧ s.aiSpeed / (1 - s.aiReaction) ≤ |aiDiff s|)) := by
    rw [hstep]
    refine (c3.trans hth).trans ?_
    rw [abs_eq_zero]
  refine ⟨htgt, hstep, ?_, ?_, hbetween, ?_, ?_, ?_⟩
  · intro hd
    rw [hstep]
    exact c1 hd
  · intro hd
    rw [hstep]
    exact c2 hd
  · intro hk
    subst hk
    have hpe : p = ⟨7, 5, 1 / 2⟩ := by
      unfold DIFFICULTY at hp
      rw [if_pos rfl] at hp
      exact (Option.some.inj hp).symm
    rw [hpe] at hs hre
    rw [hbetween, hs, hre]
    norm_num
  · intro hk
    subst hk
    have hpe : p = ⟨10, 8, 4 / 5⟩ := by
      unfold DIFFICULTY at hp
      rw [if_neg (by decide), if_pos rfl] at hp
      exact (Option.some.inj hp).symm
    rw [hpe] at hs hre
    rw [hbetween, hs, hre]
    norm_num
  · intro hk
    subst hk
    have hpe : p = ⟨13, 11, 1⟩ := by
      unfold DIFFICULTY at hp
      rw [if_neg (by decide), if_neg (by decide), if_pos rfl] at hp
      exact (Option.some.inj hp).symm
    rw [hpe] at hs hre
    rw [hbetween, hs, hre]
    norm_num

theorem moveAI_tracking_witness :
    ((DIFFICULTY "easy" : Option (Preset ℚ)) = some ⟨7, 5, 1 / 2⟩ ∧
      (chasing 5 (1 / 2) 56 : State ℚ).dx > 0 ∧
      0 ≤ aiDiff (chasing 5 (1 / 2) 56 : State ℚ)) ∧
    (chasing 5 (1 / 2) 56 : State ℚ).paddle2Y ≤
      (moveAI 400 (chasing 5 (1 / 2) 56 : State ℚ)).paddle2Y ∧
    ((min (chasing 5 (1 / 2) 56 : State ℚ).paddle2Y (aiTarget (chasing 5 (1 / 2) 56 : State ℚ))
          ≤ (moveAI 400 (chasing 5 (1 / 2) 56 : State ℚ)).paddle2Y ∧
        (moveAI 400 (chasing 5 (1 / 2) 56 : State ℚ)).paddle2Y ≤
          max (chasing 5 (1 / 2) 56 : State ℚ).paddle2Y
            (aiTarget (chasing 5 (1 / 2) 56 : State ℚ))) ↔
      (aiDiff (chasing 5 (1 / 2) 56 : State ℚ) = 0 ∨
        10 ≤ |aiDiff (chasing 5 (1 / 2) 56 : State ℚ)|)) :=
  have hp : (DIFFICULTY "easy" : Option (Preset ℚ)) = some ⟨7, 5, 1 / 2⟩ := by
    simp [DIFFICULTY]
  have hdx : (chasing 5 (1 / 2) 56 : State ℚ).dx > 0 := by norm_num [chasing]
  have hd : 0 ≤ aiDiff (chasing 5 (1 / 2) 56 : State ℚ) := by
    norm_num [aiDiff, aiTarget, chasing, kickoff, BALL_SIZE, PADDLE_HEIGHT]
  ⟨⟨hp, hdx, hd⟩,
    (moveAI_tracking (chasing 5 (1 / 2) 56) 400 "easy" ⟨7, 5, 1 / 2⟩ hp rfl rfl hdx).2.2.1 hd,
    (moveAI_tracking (chasing 5 (1 / 2) 56) 400 "easy" ⟨7, 5, 1 / 2⟩ hp rfl rfl hdx).2.2.2.2.2.1
      rfl⟩

end Tracking

/-! ## Paddle speed per held key -/

section PaddleSpeed

variable {α : Type} [LinearOrderedField α]

theorem held_diff_abs (a b : Bool) : |(held a : α) - held b| ≤ 1 := by
  cases a <;> cases b <;> simp [held]

theorem speed_step_abs (v : α) (a b : Bool) : |v * (held a - held b)| ≤ |v| := by
  rw [abs_mul]
  exact mul_le_of_le_one_right (abs_nonneg v) (held_diff_abs a b)

omit [LinearOrderedField α] in
theorem paddle1Y_congr (s : State α) (a b : α) (hab : a = b) :
    ({ s with paddle1Y := a } : State α) = { s with paddle1Y := b } := by
  rw [hab]

omit [LinearOrderedField α] in
theorem paddle2Y_congr (s : State α) (a b : α) (hab : a = b) :
    ({ s with paddle2Y := a } : State α) = { s with paddle2Y := b } := by
  rw [hab]

/-- The keys W and S move paddle 1 by `paddleSpeed * (down - up)` and touch nothing else. -/
theorem moveP1Keys_eq (s : State α) :
    moveP1Keys s =
      { s with paddle1Y := s.paddle1Y + s.paddleSpeed * (held (downKeys s) - held (upKeys s)) } := by
  unfold moveP1Keys downKeys upKeys held
  rcases hu : (s.keysDown "w" || s.keysDown "W") with _ | _ <;>
    rcases hd : (s.keysDown "s" || s.keysDown "S") with _ | _ <;>
    simp only [hu, hd, if_true, if_false, Bool.false_eq_true] <;>
    exact paddle1Y_congr s _ _ (by ring)

/-- The arrow keys move paddle 1 by `paddleSpeed * (down - up)` and touch nothing else. -/
theorem moveP1Arrows_eq (s : State α) :
    moveP1Arrows s =
      { s with paddle1Y := s.paddle1Y +
        s.paddleSpeed * (held (s.keysDown "ArrowDown") - held (s.keysDown "ArrowUp")) } := by
  unfold moveP1Arrows held
  rcases hu : s.keysDown "ArrowUp" with _ | _ <;>
    rcases hd : s.keysDown "ArrowDown" with _ | _ <;>
    simp only [hu, hd, if_true, if_false, Bool.false_eq_true] <;>
    exact paddle1Y_congr s _ _ (by ring)

/-- The arrow keys move paddle 2 by `paddleSpeed * (down - up)` and touch nothing else. -/
theorem moveP2Arrows_eq (s : State α) :
    moveP2Arrows s =
      { s with paddle2Y := s.paddle2Y +
        s.paddleSpeed * (held (s.keysDown "ArrowDown") - held (s.keysDown "ArrowUp")) } := by
  unfold moveP2Arrows held
  rcases hu : s.keysDown "ArrowUp" with _ | _ <;>
    rcases hd : s.keysDown "ArrowDown" with _ | _ <;>
    simp only [hu, hd, if_true, if_false, Bool.false_eq_true] <;>
    exact paddle2Y_congr s _ _ (by ring)

theorem moveAI_paddle1Y (h : α) (s : State α) : (moveAI h s).paddle1Y = s.paddle1Y := by
  unfold moveAI
  dsimp only
  split_ifs <;> rfl

theorem moveAI_mode (h : α) (s : State α) : (moveAI h s).mode = s.mode := by
  obtain ⟨a, b, c, he⟩ := moveAI_paddleOnly h s
  rw [he]

/-- In single-player mode the key steps of `movePaddles()` are W/S, the arrows for
paddle 1, then the AI. -/
theorem movePaddlesRaw_1P (h : α) (s : State α) (hm : s.mode = "1P") :
    movePaddlesRaw h s = moveAI h (moveP1Arrows (moveP1Keys s)) := by
  have m1 : (moveP1Keys s).mode = "1P" := by rw [moveP1Keys_eq]; exact hm
  have m2 : (moveAI h (moveP1Arrows (moveP1Keys s))).mode = "1P" := by
    rw [moveAI_mode, moveP1Arrows_eq]
    exact m1
  have m3 : ¬ (moveAI h (moveP1Arrows (moveP1Keys s))).mode = "2P" := by
    rw [m2]
    decide
  unfold movePaddlesRaw
  simp only [if_pos m1, if_neg m3]

/-- In two-player mode the key steps of `movePaddles()` are W/S for paddle 1 and the
arrows for paddle 2. -/
theorem movePaddlesRaw_2P (h : α) (s : State α) (hm : s.mode = "2P") :
    movePaddlesRaw h s = moveP2Arrows (moveP1Keys s) := by
  have m1 : (moveP1Keys s).mode = "2P" := by rw [moveP1Keys_eq]; exact hm
  have m2 : ¬ (moveP1Keys s).mode = "1P" := by
    rw [m1]
    decide
  unfold movePaddlesRaw
  simp only [if_neg m2, if_pos m1]

/-- In any other mode only W/S act. -/
theorem movePaddlesRaw_other (h : α) (s : State α) (h1 : ¬ s.mode = "1P")
    (h2 : ¬ s.mode = "2P") : movePaddlesRaw h s = moveP1Keys s := by
  have m1 : (moveP1Keys s).mode = s.mode := by rw [moveP1Keys_eq]
  have n1 : ¬ (moveP1Keys s).mode = "1P" := by rw [m1]; exact h1
  have n2 : ¬ (moveP1Keys s).mode = "2P" := by rw [m1]; exact h2
  unfold movePaddlesRaw
  simp only [if_neg n1, if_neg n2]

/-- The pre-clamp position of paddle 1 after the key steps, in every mode. -/
theorem movePaddlesRaw_paddle1Y (h : α) (s : State α) :
    (movePaddlesRaw h s).paddle1Y =
      s.paddle1Y + s.paddleSpeed * (held (downKeys s) - held (upKeys s)) +
        (if s.mode = "1P" then
          s.paddleSpeed * (held (s.keysDown "ArrowDown") - held (s.keysDown "ArrowUp"))
        else 0) := by
  by_cases h1 : s.mode = "1P"
  · rw [movePaddlesRaw_1P h s h1, moveAI_paddle1Y, moveP1Arrows_eq, moveP1Keys_eq, if_pos h1]
  · rw [if_neg h1, add_zero]
    by_cases h2 : s.mode = "2P"
    · rw [movePaddlesRaw_2P h s h2, moveP2Arrows_eq, moveP1Keys_eq]
    · rw [movePaddlesRaw_other h s h1 h2, moveP1Keys_eq]

/-- The pre-clamp position of paddle 2 after the key steps in two-player mode. -/
theorem movePaddlesRaw_paddle2Y (h : α) (s : State α) (hm : s.mode = "2P") :
    (movePaddlesRaw h s).paddle2Y =
      s.paddle2Y +
        s.paddleSpeed * (held (s.keysDown "ArrowDown") - held (s.keysDown "ArrowUp")) := by
  rw [movePaddlesRaw_2P h s hm, moveP2Arrows_eq, moveP1Keys_eq]

/-- C11 (as stated, refuted): in single-player mode with S and the down arrow both
held (a down direction held, no up direction held, so `d = 1` and `u = 0`) and
`paddleSpeed = 6`, one `movePaddles` tick moves paddle 1 before clamping by 12, twice
`paddleSpeed`, not by `paddleSpeed * (d - u) = 6`; the clamp does not hide it
(`paddle1Y` goes from 160 to 172 on a table 400 high). -/
theorem double_down_moves_twice :
    (bothDown : State ℚ).mode = "1P" ∧
    (downKeys (bothDown : State ℚ) || (bothDown : State ℚ).keysDown "ArrowDown") = true ∧
    (upKeys (bothDown : State ℚ) || (bothDown : State ℚ).keysDown "ArrowUp") = false ∧
    (movePaddlesRaw 400 (bothDown : State ℚ)).paddle1Y - (bothDown : State ℚ).paddle1Y
      = 2 * (bothDown : State ℚ).paddleSpeed ∧
    (movePaddlesRaw 400 (bothDown : State ℚ)).paddle1Y - (bothDown : State ℚ).paddle1Y ≠
      (bothDown : State ℚ).paddleSpeed *
        (held (downKeys (bothDown : State ℚ) || (bothDown : State ℚ).keysDown "ArrowDown") -
          held (upKeys (bothDown : State ℚ) || (bothDown : State ℚ).keysDown "ArrowUp")) ∧
    ¬ |(movePaddlesRaw 400 (bothDown : State ℚ)).paddle1Y - (bothDown : State ℚ).paddle1Y|
      ≤ (bothDown : State ℚ).paddleSpeed ∧
    (bothDown : State ℚ).paddle1Y = 160 ∧
    (movePaddles 400 (bothDown : State ℚ)).paddle1Y = 172 := by
  have hraw : (movePaddlesRaw 400 (bothDown : State ℚ)).paddle1Y = 172 := by
    rw [movePaddlesRaw_paddle1Y]
    simp [bothDown, kickoff, initialState, held, downKeys, upKeys]
    norm_num
  have hclamp : (movePaddles 400 (bothDown : State ℚ)).paddle1Y = 172 := by
    show clamp (movePaddlesRaw 400 (bothDown : State ℚ)).paddle1Y 0 (400 - PADDLE_HEIGHT) = 172
    rw [hraw]
    norm_num [clamp, PADDLE_HEIGHT]
  refine ⟨rfl, ?_, ?_, ?_, ?_, ?_, ?_, hclamp⟩
  · simp [bothDown, downKeys]
  · simp [bothDown, upKeys]
  · rw [hraw]
    norm_num [bothDown, kickoff, initialState]
  · rw [hraw]
    simp [bothDown, kickoff, initialState, held, downKeys, upKeys]
    norm_num
  · rw [hraw]
    norm_num [bothDown, kickoff, initialState]
  · norm_num [bothDown, kickoff]

/-- C11 (amended): for every state, mode, held-key set and table height, one
`movePaddles` tick changes `paddle1Y` before clamping by `paddleSpeed * (d - u)` for
the pair W/S (`d` is 1 if S is held, `u` is 1 if W is held, else 0) plus, in
single-player mode only, `paddleSpeed * (d - u)` for the arrow pair; in two-player
mode it changes `paddle2Y` by `paddleSpeed * (d - u)` for the arrow pair.  So the
pre-clamp change of a paddle is at most `|paddleSpeed|` per key pair (at most
`|paddleSpeed|` for each paddle in two-player mode, at most twice that for paddle 1 in
single-player mode), and a pair with up and down held together contributes no
movement. -/
theorem paddle_speed_per_pair (s : State α) (h : α) :
    ((movePaddlesRaw h s).paddle1Y =
      s.paddle1Y + s.paddleSpeed * (held (downKeys s) - held (upKeys s)) +
        (if s.mode = "1P" then
          s.paddleSpeed * (held (s.keysDown "ArrowDown") - held (s.keysDown "ArrowUp"))
        else 0)) ∧
    ((movePaddles h s).paddle1Y = clamp (movePaddlesRaw h s).paddle1Y 0 (h - PADDLE_HEIGHT) ∧
      (movePaddles h s).paddle2Y = clamp (movePaddlesRaw h s).paddle2Y 0 (h - PADDLE_HEIGHT)) ∧
    (s.mode = "2P" →
      (movePaddlesRaw h s).paddle1Y - s.paddle1Y =
        s.paddleSpeed * (held (downKeys s) - held (upKeys s)) ∧
      (movePaddlesRaw h s).paddle2Y - s.paddle2Y =
        s.paddleSpeed * (held (s.keysDown "ArrowDown") - held (s.keysDown "ArrowUp")) ∧
      |(movePaddlesRaw h s).paddle1Y - s.paddle1Y| ≤ |s.paddleSpeed| ∧
      |(movePaddlesRaw h s).paddle2Y - s.paddle2Y| ≤ |s.paddleSpeed| ∧
      (downKeys s = upKeys s → (movePaddlesRaw h s).paddle1Y = s.paddle1Y) ∧
      (s.keysDown "ArrowDown" = s.keysDown "ArrowUp" →
        (movePaddlesRaw h s).paddle2Y = s.paddle2Y)) ∧
    (s.mode = "1P" →
      (movePaddlesRaw h s).paddle1Y - s.paddle1Y =
        s.paddleSpeed * (held (downKeys s) - held (upKeys s)) +
          s.paddleSpeed * (held (s.keysDown "ArrowDown") - held (s.keysDown "ArrowUp")) ∧
      |(movePaddlesRaw h s).paddle1Y - s.paddle1Y| ≤ 2 * |s.paddleSpeed| ∧
      (downKeys s = upKeys s →
        (movePaddlesRaw h s).paddle1Y - s.paddle1Y =
          s.paddleSpeed * (held (s.keysDown "ArrowDown") - held (s.keysDown "ArrowUp"))) ∧
      (s.keysDown "ArrowDown" = s.keysDown "ArrowUp" →
        (movePaddlesRaw h s).paddle1Y - s.paddle1Y =
          s.paddleSpeed * (held (downKeys s) - held (upKeys s)))) := by
  have hp1 := movePaddlesRaw_paddle1Y h s
  have b1 := speed_step_abs s.paddleSpeed (downKeys s) (upKeys s)
  have b2 := speed_step_abs s.paddleSpeed (s.keysDown "ArrowDown") (s.keysDown "ArrowUp")
  refine ⟨hp1, ⟨rfl, rfl⟩, ?_, ?_⟩
  · intro hm
    have n1 : ¬ s.mode = "1P" := by rw [hm]; decide
    rw [if_neg n1, add_zero] at hp1
    have hp2 := movePaddlesRaw_paddle2Y h s hm
    have d1 : (movePaddlesRaw h s).paddle1Y - s.paddle1Y =
        s.paddleSpeed * (held (downKeys s) - held (upKeys s)) := by rw [hp1]; ring
    have d2 : (movePaddlesRaw h s).paddle2Y - s.paddle2Y =
        s.paddleSpeed * (held (s.keysDown "ArrowDown") - held (s.keysDown "ArrowUp")) := by
      rw [hp2]; ring
    refine ⟨d1, d2, by rw [d1]; exact b1, by rw [d2]; exact b2, ?_, ?_⟩
    · intro he
      rw [hp1, he, sub_self, mul_zero, add_zero]
    · intro he
      rw [hp2, he, sub_self, mul_zero, add_zero]
  · intro hm
    rw [if_pos hm] at hp1
    have d1 : (movePaddlesRaw h s).paddle1Y - s.paddle1Y =
        s.paddleSpeed * (held (downKeys s) - held (upKeys s)) +
          s.paddleSpeed * (held (s.keysDown "ArrowDown") - held (s.keysDown "ArrowUp")) := by
      rw [hp1]; ring
    refine ⟨d1, ?_, ?_, ?_⟩
    · rw [d1]
      calc |s.paddleSpeed * (held (downKeys s) - held (upKeys s)) +
            s.paddleSpeed * (held (s.keysDown "ArrowDown") - held (s.keysDown "ArrowUp"))|
          ≤ |s.paddleSpeed * (held (downKeys s) - held (upKeys s))| +
            |s.paddleSpeed * (held (s.keysDown "ArrowDown") - held (s.keysDown "ArrowUp"))| :=
            abs_add _ _
        _ ≤ |s.paddleSpeed| + |s.paddleSpeed| := add_le_add b1 b2
        _ = 2 * |s.paddleSpeed| := by ring
    · intro he
      rw [d1, he, sub_self, mul_zero, zero_add]
    · intro he
      rw [d1, he, sub_self, mul_zero, add_zero]

theorem paddle_speed_per_pair_witness :
    ((duel : State ℚ).mode = "2P" ∧
      (movePaddlesRaw 400 (duel : State ℚ)).paddle1Y - (duel : State ℚ).paddle1Y =
        (duel : State ℚ).paddleSpeed *
          (held (downKeys (duel : State ℚ)) - held (upKeys (duel : State ℚ))) ∧
      |(movePaddlesRaw 400 (duel : State ℚ)).paddle2Y - (duel : State ℚ).paddle2Y|
        ≤ |(duel : State ℚ).paddleSpeed|) ∧
    ((bothDown : State ℚ).mode = "1P" ∧
      |(movePaddlesRaw 400 (bothDown : State ℚ)).paddle1Y - (bothDown : State ℚ).paddle1Y|
        ≤ 2 * |(bothDown : State ℚ).paddleSpeed|) :=
  ⟨⟨rfl, ((paddle_speed_per_pair (duel : State ℚ) 400).2.2.1 rfl).1,
      ((paddle_speed_per_pair (duel : State ℚ) 400).2.2.1 rfl).2.2.2.1⟩,
    ⟨rfl, ((paddle_speed_per_pair (bothDown : State ℚ) 400).2.2.2 rfl).2.1⟩⟩

end PaddleSpeed

/-! ## The end of the match -/

section MatchEnd

/-- What one `moveBall()` tick does to the scores and to `running`, by the edge through
which the ball has left after the paddle steps. -/
theorem moveBall_scores_exit {α : Type} [LinearOrderedField α] (M : JSMath α) (w h rnd : α)
    (s : State α) :
    ((rightPaddle M w (leftPaddle M (wallBounce h (integrate s)))).ballX ≤ -BALL_SIZE →
      (moveBall M w h rnd s).p1Score = s.p1Score ∧
      (moveBall M w h rnd s).p2Score = s.p2Score + 1 ∧
      ((moveBall M w h rnd s).running =
        (s.running && !decide (s.p1Score ≥ WIN_SCORE ∨ s.p2Score + 1 ≥ WIN_SCORE)))) ∧
    (¬ (rightPaddle M w (leftPaddle M (wallBounce h (integrate s)))).ballX ≤ -BALL_SIZE →
      (rightPaddle M w (leftPaddle M (wallBounce h (integrate s)))).ballX ≥ w →
      (moveBall M w h rnd s).p1Score = s.p1Score + 1 ∧
      (moveBall M w h rnd s).p2Score = s.p2Score ∧
      ((moveBall M w h rnd s).running =
        (s.running && !decide (s.p1Score + 1 ≥ WIN_SCORE ∨ s.p2Score ≥ WIN_SCORE)))) ∧
    (¬ (rightPaddle M w (leftPaddle M (wallBounce h (integrate s)))).ballX ≤ -BALL_SIZE →
      ¬ (rightPaddle M w (leftPaddle M (wallBounce h (integrate s)))).ballX ≥ w →
      (moveBall M w h rnd s).p1Score = s.p1Score ∧
      (moveBall M w h rnd s).p2Score = s.p2Score ∧
      (moveBall M w h rnd s).running = s.running) := by
  obtain ⟨e1, e2, e3⟩ := prePoint_frame M w h s
  refine ⟨?_, ?_, ?_⟩
  · intro h1
    unfold moveBall scoring
    rw [if_pos h1]
    obtain ⟨f1, f2, f3⟩ := afterPoint_frame M w h rnd 1
      { rightPaddle M w (leftPaddle M (wallBounce h (integrate s))) with
        p2Score := (rightPaddle M w (leftPaddle M (wallBounce h (integrate s)))).p2Score + 1 }
    refine ⟨f1.trans e1, f2.trans (by rw [e2]), f3.trans ?_⟩
    simp only [e1, e2, e3]
  · intro h1 h2
    unfold moveBall scoring
    rw [if_neg h1, if_pos h2]
    obtain ⟨f1, f2, f3⟩ := afterPoint_frame M w h rnd (-1)
      { rightPaddle M w (leftPaddle M (wallBounce h (integrate s))) with
        p1Score := (rightPaddle M w (leftPaddle M (wallBounce h (integrate s)))).p1Score + 1 }
    refine ⟨f1.trans (by rw [e1]), f2.trans e2, f3.trans ?_⟩
    simp only [e1, e2, e3]
  · intro h1 h2
    unfold moveBall scoring
    rw [if_neg h1, if_neg h2]
    exact ⟨e1, e2, e3⟩

/-- Every reachable state has both scores at most `WIN_SCORE`, and below it while the
match is running. -/
theorem reachable_scores_le {α : Type} [LinearOrderedField α] (M : JSMath α) (s : State α)
    (hr : Reachable M s) :
    (s.p1Score ≤ WIN_SCORE ∧ s.p2Score ≤ WIN_SCORE) ∧
    (s.running = true → s.p1Score < WIN_SCORE ∧ s.p2Score < WIN_SCORE) := by
  refine ⟨?_, reachable_scores M s hr⟩
  induction hr with
  | reset w h rnd s0 s hs =>
    obtain ⟨h1, h2⟩ := resetGame_scores M w h rnd s0 s hs
    rw [h1, h2]
    exact ⟨by decide, by decide⟩
  | start w h rnd mode difficulty s0 s hs =>
    obtain ⟨h1, h2⟩ := startGame_scores M w h rnd mode difficulty s0 s hs
    rw [h1, h2]
    exact ⟨by decide, by decide⟩
  | ball w h rnd s hrs hrun _ =>
    obtain ⟨i1, i2⟩ := reachable_scores M s hrs hrun
    unfold WIN_SCORE at i1 i2 ⊢
    rcases moveBall_scores M w h rnd s with ⟨a1, a2, _⟩ | ⟨a1, a2, _⟩ | ⟨a1, a2, _⟩ <;>
      rw [a1, a2] <;> constructor <;> omega
  | paddles h s _ ih =>
    obtain ⟨a1, a2, _⟩ := movePaddles_frame h s
    rw [a1, a2]
    exact ih

theorem wideKickoff_started :
    startGame ⟨Real.sqrt, Real.cos, Real.sin, Real.pi⟩ 25600 400 (1 / 2) "1P" "medium"
      (initialState : State ℝ) = some (wideKickoff : State ℝ) := by
  simp [startGame, resetGame, DIFFICULTY, resetBall, resetPaddles, initialState, kickoff,
    wideKickoff, BALL_SIZE, PADDLE_HEIGHT]
  norm_num

theorem wideKickoff_tick :
    moveBall ⟨Real.sqrt, Real.cos, Real.sin, Real.pi⟩ 12800 1000 (1 / 2)
      (wideKickoff : State ℝ) = shrinking 1 6392 := by
  norm_num [moveBall, scoring, afterPoint, checkGameOver, resetBall, rightPaddle, leftPaddle,
    wallBounce, integrate, wideKickoff, shrinking, kickoff, initialState, checkPaddleCollision,
    BALL_SIZE, PADDLE_HEIGHT, PADDLE_WIDTH, PADDLE_MARGIN, WIN_SCORE]

/-- A tick on a table of width `w <= x - 10` awards the next point to player 1 and
re-serves the ball at `w / 2 - 8`. -/
theorem shrinking_tick (n : Nat) (x w : ℝ) (hn : n < 6) (hx : -6 < x) (hw : w ≤ x - 10) :
    moveBall ⟨Real.sqrt, Real.cos, Real.sin, Real.pi⟩ w 1000 (1 / 2)
      (shrinking n x : State ℝ) = shrinking (n + 1) (w / 2 - 8) := by
  have hwall : wallBounce 1000 (integrate (shrinking n x : State ℝ)) =
      integrate (shrinking n x) := by
    norm_num [wallBounce, integrate, shrinking, BALL_SIZE]
  have hl : leftHit (integrate (shrinking n x : State ℝ)) = false := by
    norm_num [leftHit, checkPaddleCollision, integrate, shrinking, kickoff, PADDLE_HEIGHT,
      BALL_SIZE]
  have hr : rightHit w (integrate (shrinking n x : State ℝ)) = false := by
    norm_num [rightHit, checkPaddleCollision, integrate, shrinking, kickoff, PADDLE_HEIGHT,
      BALL_SIZE]
  unfold moveBall
  rw [hwall, leftPaddle_nohit _ _ hl, rightPaddle_nohit _ _ _ hr]
  have h1 : ¬ (integrate (shrinking n x : State ℝ)).ballX ≤ -BALL_SIZE := by
    norm_num [integrate, shrinking, BALL_SIZE]
    linarith
  have h2 : (integrate (shrinking n x : State ℝ)).ballX ≥ w := by
    norm_num [integrate, shrinking]
    linarith
  have h3 : ¬ ((n : Int) + 1 ≥ WIN_SCORE ∨ (0 : Int) ≥ WIN_SCORE) := by
    unfold WIN_SCORE
    omega
  unfold scoring
  rw [if_neg h1, if_pos h2]
  have hc : (checkGameOver ({ ({ integrate (shrinking n x : State ℝ) with
      p1Score := (integrate (shrinking n x : State ℝ)).p1Score + 1 } : State ℝ) with
      trace := (integrate (shrinking n x : State ℝ)).trace ++ [Cue.score],
      currentSpeed := (integrate (shrinking n x : State ℝ)).ballSpeed } : State ℝ)).1 = false := by
    rcases hb : (checkGameOver ({ ({ integrate (shrinking n x : State ℝ) with
      p1Score := (integrate (shrinking n x : State ℝ)).p1Score + 1 } : State ℝ) with
      trace := (integrate (shrinking n x : State ℝ)).trace ++ [Cue.score],
      currentSpeed := (integrate (shrinking n x : State ℝ)).ballSpeed } : State ℝ)).1 with _ | _
    · rfl
    · exact absurd ((checkGameOver_fst _).mp hb) h3
  unfold afterPoint
  simp only [hc, checkGameOver_not _ hc, Bool.false_eq_true, if_false]
  simp [resetBall, integrate, shrinking, kickoff, initialState, BALL_SIZE, List.replicate_succ']
  norm_num

theorem shrinking_step (n : Nat) (x w y : ℝ) (hn : n < 6) (hx : -6 < x) (hw : w ≤ x - 10)
    (hy : y = w / 2 - 8)
    (hr : Reachable ⟨Real.sqrt, Real.cos, Real.sin, Real.pi⟩ (shrinking n x : State ℝ)) :
    Reachable ⟨Real.sqrt, Real.cos, Real.sin, Real.pi⟩ (shrinking (n + 1) y : State ℝ) := by
  rw [hy, ← shrinking_tick n x w hn hx hw]
  exact Reachable.ball w 1000 (1 / 2) _ hr rfl

/-- Six points into the wide match: 6-0, still running, reached by `moveBall` ticks
only, each taken while `running` is true. -/
theorem shrinking_six_reachable :
    Reachable ⟨Real.sqrt, Real.cos, Real.sin, Real.pi⟩ (shrinking 6 92 : State ℝ) := by
  have h0 : Reachable ⟨Real.sqrt, Real.cos, Real.sin, Real.pi⟩ (wideKickoff : State ℝ) :=
    Reachable.start 25600 400 (1 / 2) "1P" "medium" initialState wideKickoff wideKickoff_started
  have h1 : Reachable ⟨Real.sqrt, Real.cos, Real.sin, Real.pi⟩ (shrinking 1 6392 : State ℝ) :=
    wideKickoff_tick ▸ Reachable.ball 12800 1000 (1 / 2) wideKickoff h0 rfl
  have h2 := shrinking_step 1 6392 6000 2992 (by norm_num) (by norm_num) (by norm_num)
    (by norm_num) h1
  have h3 := shrinking_step 2 2992 2900 1442 (by norm_num) (by norm_num) (by norm_num)
    (by norm_num) h2
  have h4 := shrinking_step 3 1442 1400 692 (by norm_num) (by norm_num) (by norm_num)
    (by norm_num) h3
  have h5 := shrinking_step 4 692 600 292 (by norm_num) (by norm_num) (by norm_num)
    (by norm_num) h4
  exact shrinking_step 5 292 200 92 (by norm_num) (by norm_num) (by norm_num) (by norm_num) h5

theorem shrinking_six_tick :
    moveBall ⟨Real.sqrt, Real.cos, Real.sin, Real.pi⟩ 80 1000 (1 / 2)
      (shrinking 6 92 : State ℝ) = finished := by
  norm_num [moveBall, scoring, afterPoint, checkGameOver, saveHighScore, JSNumber.gt,
    JSNumber.toJSString, rightPaddle, leftPaddle, wallBounce, integrate, shrinking, finished,
    kickoff, initialState, checkPaddleCollision, BALL_SIZE, PADDLE_HEIGHT, PADDLE_WIDTH,
    PADDLE_MARGIN, WIN_SCORE]
  exact ⟨rfl, rfl⟩

/-- C2 (as stated, refuted): the state after the winning tick is reached from
`startGame` (hence `resetGame`) by seven `moveBall` ticks, each taken while `running`
is true, and in it `p1Score = 7`, so not both scores are below `WIN_SCORE`. -/
theorem finished_state_reached :
    Reachable ⟨Real.sqrt, Real.cos, Real.sin, Real.pi⟩ (finished : State ℝ) ∧
    (finished : State ℝ).running = false ∧
    (finished : State ℝ).p1Score = 7 ∧
    ¬ ((finished : State ℝ).p1Score < WIN_SCORE ∧ (finished : State ℝ).p2Score < WIN_SCORE) :=
  ⟨shrinking_six_tick ▸ Reachable.ball 80 1000 (1 / 2) _ shrinking_six_reachable rfl, rfl, rfl,
    by decide⟩

/-- C2 (amended): in every state reachable from `resetGame` by `moveBall` ticks taken
while `running` is true, both scores are at most `WIN_SCORE`, and below it whenever
`running` is still true.  A tick taken in such a running state raises at most one
score, by exactly 1: `p2Score` when the ball has left through the left edge, `p1Score`
when it has left through the right edge, none otherwise (and then `running` stays
true).  The tick sets `running` to false if and only if after its score update
`p1Score >= 7` or `p2Score >= 7`, and then that score is exactly 7; `checkGameOver`
returns true exactly on that test. -/
theorem win_condition {α : Type} [LinearOrderedField α] (M : JSMath α) (s : State α)
    (hr : Reachable M s) :
    (s.p1Score ≤ WIN_SCORE ∧ s.p2Score ≤ WIN_SCORE) ∧
    (s.running = true → s.p1Score < WIN_SCORE ∧ s.p2Score < WIN_SCORE) ∧
    (s.running = true → ∀ w h rnd : α,
      (((moveBall M w h rnd s).p1Score = s.p1Score ∧
          (moveBall M w h rnd s).p2Score = s.p2Score) ∨
        ((moveBall M w h rnd s).p1Score = s.p1Score + 1 ∧
          (moveBall M w h rnd s).p2Score = s.p2Score) ∨
        ((moveBall M w h rnd s).p1Score = s.p1Score ∧
          (moveBall M w h rnd s).p2Score = s.p2Score + 1)) ∧
      ((beforeScoring M w h s).ballX ≤ -BALL_SIZE →
        (moveBall M w h rnd s).p1Score = s.p1Score ∧
        (moveBall M w h rnd s).p2Score = s.p2Score + 1) ∧
      (¬ (beforeScoring M w h s).ballX ≤ -BALL_SIZE → (beforeScoring M w h s).ballX ≥ w →
        (moveBall M w h rnd s).p1Score = s.p1Score + 1 ∧
        (moveBall M w h rnd s).p2Score = s.p2Score) ∧
      (pointScored w (beforeScoring M w h s) = false →
        (moveBall M w h rnd s).p1Score = s.p1Score ∧
        (moveBall M w h rnd s).p2Score = s.p2Score ∧
        (moveBall M w h rnd s).running = true) ∧
      ((moveBall M w h rnd s).running = false ↔
        ((moveBall M w h rnd s).p1Score ≥ WIN_SCORE ∨
          (moveBall M w h rnd s).p2Score ≥ WIN_SCORE)) ∧
      ((moveBall M w h rnd s).running = false →
        ((moveBall M w h rnd s).p1Score = WIN_SCORE ∨
          (moveBall M w h rnd s).p2Score = WIN_SCORE)) ∧
      ((moveBall M w h rnd s).running = true →
        ((moveBall M w h rnd s).p1Score < WIN_SCORE ∧
          (moveBall M w h rnd s).p2Score < WIN_SCORE))) ∧
    (∀ u : State α, (checkGameOver u).1 = true ↔
      (u.p1Score ≥ WIN_SCORE ∨ u.p2Score ≥ WIN_SCORE)) := by
  obtain ⟨hle, hlt⟩ := reachable_scores_le M s hr
  refine ⟨hle, hlt, ?_, checkGameOver_fst⟩
  intro hrun w h rnd
  obtain ⟨i1, i2⟩ := hlt hrun
  obtain ⟨x1, x2, x3⟩ := moveBall_scores_exit M w h rnd s
  refine ⟨?_, ?_, ?_, ?_, ?_, ?_, ?_⟩
  · rcases moveBall_scores M w h rnd s with ⟨a1, a2, _⟩ | ⟨a1, a2, _⟩ | ⟨a1, a2, _⟩
    · exact Or.inl ⟨a1, a2⟩
    · exact Or.inr (Or.inl ⟨a1, a2⟩)
    · exact Or.inr (Or.inr ⟨a1, a2⟩)
  · intro hx
    exact ⟨(x1 hx).1, (x1 hx).2.1⟩
  · intro hx hy
    exact ⟨(x2 hx hy).1, (x2 hx hy).2.1⟩
  · intro hp
    simp only [pointScored, Bool.or_eq_false_iff, decide_eq_false_iff_not] at hp
    obtain ⟨a1, a2, a3⟩ := x3 hp.1 hp.2
    exact ⟨a1, a2, a3.trans hrun⟩
  · unfold WIN_SCORE at i1 i2 ⊢
    rcases moveBall_scores M w h rnd s with ⟨a1, a2, a3⟩ | ⟨a1, a2, a3⟩ | ⟨a1, a2, a3⟩
    · rw [a1, a2, a3, hrun]
      constructor
      · intro hx; exact absurd hx (by simp)
      · intro hx; omega
    · rw [a1, a2, a3, hrun]
      unfold WIN_SCORE
      simp only [Bool.true_and, Bool.not_eq_false', decide_eq_true_eq]
    · rw [a1, a2, a3, hrun]
      unfold WIN_SCORE
      simp only [Bool.true_and, Bool.not_eq_false', decide_eq_true_eq]
  · unfold WIN_SCORE at i1 i2 ⊢
    rcases moveBall_scores M w h rnd s with ⟨a1, a2, a3⟩ | ⟨a1, a2, a3⟩ | ⟨a1, a2, a3⟩
    · rw [a3, hrun]
      intro hx; exact absurd hx (by simp)
    · rw [a1, a2, a3, hrun]
      unfold WIN_SCORE
      simp only [Bool.true_and, Bool.not_eq_false', decide_eq_true_eq]
      intro hx; omega
    · rw [a1, a2, a3, hrun]
      unfold WIN_SCORE
      simp only [Bool.true_and, Bool.not_eq_false', decide_eq_true_eq]
      intro hx; omega
  · intro hx
    exact reachable_scores M _ (Reachable.ball w h rnd s hr hrun) hx

theorem wideKickoff_exit :
    ¬ (beforeScoring ⟨Real.sqrt, Real.cos, Real.sin, Real.pi⟩ 12800 1000
        (wideKickoff : State ℝ)).ballX ≤ -BALL_SIZE ∧
    (beforeScoring ⟨Real.sqrt, Real.cos, Real.sin, Real.pi⟩ 12800 1000
        (wideKickoff : State ℝ)).ballX ≥ 12800 := by
  constructor <;>
    norm_num [beforeScoring, rightPaddle, leftPaddle, wallBounce, integrate, wideKickoff,
      kickoff, initialState, checkPaddleCollision, BALL_SIZE, PADDLE_HEIGHT, PADDLE_WIDTH,
      PADDLE_MARGIN]

theorem shrinking_six_exit :
    ¬ (beforeScoring ⟨Real.sqrt, Real.cos, Real.sin, Real.pi⟩ 80 1000
        (shrinking 6 92 : State ℝ)).ballX ≤ -BALL_SIZE ∧
    (beforeScoring ⟨Real.sqrt, Real.cos, Real.sin, Real.pi⟩ 80 1000
        (shrinking 6 92 : State ℝ)).ballX ≥ 80 := by
  constructor <;>
    norm_num [beforeScoring, rightPaddle, leftPaddle, wallBounce, integrate, shrinking,
      kickoff, initialState, checkPaddleCollision, BALL_SIZE, PADDLE_HEIGHT, PADDLE_WIDTH,
      PADDLE_MARGIN]

theorem win_condition_witness :
    (Reachable ⟨Real.sqrt, Real.cos, Real.sin, Real.pi⟩ (wideKickoff : State ℝ) ∧
      (wideKickoff : State ℝ).running = true ∧
      (¬ (beforeScoring ⟨Real.sqrt, Real.cos, Real.sin, Real.pi⟩ 12800 1000
          (wideKickoff : State ℝ)).ballX ≤ -BALL_SIZE ∧
        (beforeScoring ⟨Real.sqrt, Real.cos, Real.sin, Real.pi⟩ 12800 1000
          (wideKickoff : State ℝ)).ballX ≥ 12800) ∧
      (wideKickoff : State ℝ).p1Score = 0 ∧
      (moveBall ⟨Real.sqrt, Real.cos, Real.sin, Real.pi⟩ 12800 1000 (1 / 2)
          (wideKickoff : State ℝ)).p1Score = (wideKickoff : State ℝ).p1Score + 1 ∧
      (moveBall ⟨Real.sqrt, Real.cos, Real.sin, Real.pi⟩ 12800 1000 (1 / 2)
          (wideKickoff : State ℝ)).p2Score = (wideKickoff : State ℝ).p2Score) ∧
    (Reachable ⟨Real.sqrt, Real.cos, Real.sin, Real.pi⟩ (shrinking 6 92 : State ℝ) ∧
      (shrinking 6 92 : State ℝ).running = true ∧
      (shrinking 6 92 : State ℝ).p1Score = 6 ∧
      (¬ (beforeScoring ⟨Real.sqrt, Real.cos, Real.sin, Real.pi⟩ 80 1000
          (shrinking 6 92 : State ℝ)).ballX ≤ -BALL_SIZE ∧
        (beforeScoring ⟨Real.sqrt, Real.cos, Real.sin, Real.pi⟩ 80 1000
          (shrinking 6 92 : State ℝ)).ballX ≥ 80) ∧
      (moveBall ⟨Real.sqrt, Real.cos, Real.sin, Real.pi⟩ 80 1000 (1 / 2)
          (shrinking 6 92 : State ℝ)).p1Score = (shrinking 6 92 : State ℝ).p1Score + 1 ∧
      ((moveBall ⟨Real.sqrt, Real.cos, Real.sin, Real.pi⟩ 80 1000 (1 / 2)
          (shrinking 6 92 : State ℝ)).running = false ↔
        ((moveBall ⟨Real.sqrt, Real.cos, Real.sin, Real.pi⟩ 80 1000 (1 / 2)
            (shrinking 6 92 : State ℝ)).p1Score ≥ WIN_SCORE ∨
          (moveBall ⟨Real.sqrt, Real.cos, Real.sin, Real.pi⟩ 80 1000 (1 / 2)
            (shrinking 6 92 : State ℝ)).p2Score ≥ WIN_SCORE)) ∧
      (moveBall ⟨Real.sqrt, Real.cos, Real.sin, Real.pi⟩ 80 1000 (1 / 2)
          (shrinking 6 92 : State ℝ)).running = false) :=
  have h0 : Reachable ⟨Real.sqrt, Real.cos, Real.sin, Real.pi⟩ (wideKickoff : State ℝ) :=
    Reachable.start 25600 400 (1 / 2) "1P" "medium" initialState wideKickoff wideKickoff_started
  have t0 := (win_condition ⟨Real.sqrt, Real.cos, Real.sin, Real.pi⟩ (wideKickoff : State ℝ)
    h0).2.2.1 rfl 12800 1000 (1 / 2)
  have t6 := (win_condition ⟨Real.sqrt, Real.cos, Real.sin, Real.pi⟩ (shrinking 6 92 : State ℝ)
    shrinking_six_reachable).2.2.1 rfl 80 1000 (1 / 2)
  have p0 := t0.2.2.1 wideKickoff_exit.1 wideKickoff_exit.2
  have p6 := t6.2.2.1 shrinking_six_exit.1 shrinking_six_exit.2
  have hend : (moveBall ⟨Real.sqrt, Real.cos, Real.sin, Real.pi⟩ 80 1000 (1 / 2)
      (shrinking 6 92 : State ℝ)).running = false :=
    t6.2.2.2.2.1.mpr (Or.inl (by rw [p6.1]; decide))
  ⟨⟨h0, rfl, wideKickoff_exit, rfl, p0.1, p0.2⟩,
    ⟨shrinking_six_reachable, rfl, rfl, shrinking_six_exit, p6.1, t6.2.2.2.2.1, hend⟩⟩

end MatchEnd

end PingPong
